import Mathlib

/-!
Verification of the microservice-iot message-routing and command-dispatch core.

This file gives a shallow embedding of the Python modules
`IMLine/IoTQbroker.py`, `IMLine/IMQbroker.py`, `IMLine/IMLine.py`,
`config.py`, `esp32_virtual_device.py` and `raspberry_pi_virtual_device.py`.

Modelling conventions:
* Process-global mutable state (`client_pool`, `bindings`, `greeted_users`
  in both modules, the persisted bindings document, and the traces of
  outbound calls) is collected in one `World` record that every stateful
  function threads explicitly.
* Python exceptions are modelled with `Except Unit`; a function that can
  raise returns `Except Unit α × World` so that side effects performed
  before the raise are kept (as in Python).
* Network outcomes (MQTT connect success, `publish` raising, HTTP send
  results) are modelled by an `Env` record of booleans fixed per scenario.
* Outbound calls are recorded in trace lists: every call of
  `IMQbroker.send_message` is appended to `imSends` (whether or not the
  HTTP request succeeds or the platform is recognised), every LINE push
  of `IMLine.send_message` to `linePushes`, and every successful MQTT
  publish to `mqttPublishes`; `publishAttempts` / `connectAttempts` count
  the raw transport operations.
* Strings are modelled with Lean `String`; the regular expressions of the
  parser are implemented character-by-character over ASCII (the `\w`
  class is modelled as ASCII letters, digits and underscore).
-/

namespace MicroIoT

/-- One call of `IMQbroker.send_message` (an outbound IM notification). -/
structure SendCall where
  chat : String
  text : String
  platform : String
deriving DecidableEq

/-- One LINE push performed by `IMLine.send_message` (`dest` is the
`to` field of the request payload). -/
structure LinePush where
  dest : String
  text : String
deriving DecidableEq

/-- The control-message envelope built by `Device.enable` / `disable` /
`get_status` (the dict that is JSON-serialised and published). -/
structure Envelope where
  command : String
  chat_id : Option String
  platform : String
  device_id : String
  user_id : Option String
  username : Option String
  bot_token : String
deriving DecidableEq

/-- A successful MQTT publish: topic plus payload. -/
structure Publish where
  topic : String
  payload : Envelope
deriving DecidableEq

/-- The process state: the module-level globals of `IoTQbroker.py`,
`IMQbroker.py` and `IMLine.py`, the persisted bindings document of
`config.py`, and ghost traces of the outbound calls. -/
structure World where
  /-- `IoTQbroker.client_pool`: chat ids that own an MQTT client. -/
  clientPool : List String
  /-- `IoTQbroker.bindings`: device_id -> set of chat ids (no platform). -/
  bindings : List (String × List String)
  /-- The persisted bindings document of `config.py`:
  device_id -> list of (chat_id, platform) records. -/
  persistedBindings : List (String × List (String × String))
  /-- `IMQbroker.greeted_users`. -/
  greetedIMQ : List String
  /-- `IMLine.greeted_users`. -/
  greetedLine : List String
  imSends : List SendCall
  linePushes : List LinePush
  mqttPublishes : List Publish
  publishAttempts : Nat
  connectAttempts : Nat
deriving DecidableEq

/-- Network environment of a scenario: whether the MQTT broker accepts
connections, whether `client.publish` raises, and the outcomes of the
outbound HTTP calls. -/
structure Env where
  connectOk : Bool
  publishRaises : Bool
  imSendOk : Bool
  linePushOk : Bool
deriving DecidableEq

/-- The empty process state (all globals at module load). -/
def World.init : World :=
  { clientPool := [], bindings := [], persistedBindings := [],
    greetedIMQ := [], greetedLine := [], imSends := [], linePushes := [],
    mqttPublishes := [], publishAttempts := 0, connectAttempts := 0 }

/-! ## config.py constants -/

/-- `config.SUPPORTED_DEVICES`. -/
def SUPPORTED_DEVICES : List String :=
  ["esp32_light_001", "esp32_fan_002", "raspberrypi_light_001", "raspberrypi_fan_002"]

/-- `config.DEVICE_ID` (default value). -/
def DEVICE_ID : String := "esp32_light_001"

/-- `config.TELEGRAM_BOT_TOKEN` (default value). -/
def TELEGRAM_BOT_TOKEN : String := "YOUR_TELEGRAM_BOT_TOKEN"

/-- `config.LINE_ACCESS_TOKEN` (default value). -/
def LINE_ACCESS_TOKEN : String := "YOUR_LINE_ACCESS_TOKEN"

/-! ## Python string helpers -/

/-- Python truthiness fallback `x or d` for optional strings:
`None` and `""` both fall back to the default. -/
def pyOr (s : Option String) (d : String) : String :=
  match s with
  | none => d
  | some v => if v = "" then d else v

/-- ASCII lower-casing of one character (what Python `str.lower()` does
on the ASCII range the commands use). -/
def lowerChar (c : Char) : Char :=
  if 'A' ≤ c ∧ c ≤ 'Z' then Char.ofNat (c.toNat + 32) else c

/-- `str.lower()` restricted to ASCII (as used on the command texts). -/
def pyLower (s : String) : String := ⟨s.data.map lowerChar⟩

/-- The whitespace class of Python `str.strip()` and the regex `\s`. -/
def isPySpace (c : Char) : Bool :=
  c = ' ' || c = '\t' || c = '\n' || c = '\r' || c = '\x0b' || c = '\x0c'

/-- `str.strip()`: drop whitespace from both ends. -/
def pyStrip (s : String) : String :=
  ⟨((s.data.dropWhile isPySpace).reverse.dropWhile isPySpace).reverse⟩

/-- The regex character class `[\w_]` (ASCII model). -/
def isWordChar (c : Char) : Bool := c.isAlpha || c.isDigit || c = '_'

/-- Python substring containment `needle in hay`. -/
def containsSub (needle : List Char) : List Char → Bool
  | [] => needle.isEmpty
  | c :: t => needle.isPrefixOf (c :: t) || containsSub needle t

/-- Worker for `pySplitSlash`: split a character list on '/' with an
accumulator for the current segment (in reverse). -/
def splitSlashAux : List Char → List Char → List String
  | [], acc => [⟨acc.reverse⟩]
  | c :: rest, acc =>
    if c = '/' then ⟨acc.reverse⟩ :: splitSlashAux rest []
    else splitSlashAux rest (c :: acc)

/-- Python `s.split("/")`: e.g. `""` gives `[""]`, `"a/b"` gives
`["a", "b"]`, `"a//b"` gives `["a", "", "b"]`. -/
def pySplitSlash (s : String) : List String := splitSlashAux s.data []

/-- Strip an explicit character-list prefix, returning the remainder. -/
def dropPfx : List Char → List Char → Option (List Char)
  | [], s => some s
  | _ :: _, [] => none
  | p :: ps, c :: cs => if p = c then dropPfx ps cs else none

/-! ## The command regexes of `IoTParse_Message` -/

/-- The tail `(\s+([\w_]+))?$` of the enable/disable/status regexes,
applied to the text after the keyword: `some none` means the optional
device-id group is absent, `some (some d)` means it captured `d`,
`none` means the whole regex fails. -/
def tokenArg (rest : List Char) : Option (Option String) :=
  if rest.isEmpty then some none
  else
    let ws := rest.takeWhile isPySpace
    let rem := rest.dropWhile isPySpace
    if ws.isEmpty then none
    else if rem.isEmpty then none
    else if rem.all isWordChar then some (some ⟨rem⟩) else none

/-- `re.match(r"^(kw1|kw2)(\s+([\w_]+))?$", text)`: the two keywords of
each command pair start with different characters, so no backtracking
between the alternatives is needed. -/
def matchCmd (kw1 kw2 : String) (text : String) : Option (Option String) :=
  match dropPfx kw1.data text.data with
  | some rest => tokenArg rest
  | none =>
    match dropPfx kw2.data text.data with
    | some rest => tokenArg rest
    | none => none

/-- `re.match(r"^/bind\s+([\w_]+)$", text)`: the captured device id. -/
def matchBind (text : String) : Option String :=
  match dropPfx "/bind".data text.data with
  | some rest =>
    let ws := rest.takeWhile isPySpace
    let rem := rest.dropWhile isPySpace
    if ws.isEmpty then none
    else if rem.isEmpty then none
    else if rem.all isWordChar then some ⟨rem⟩ else none
  | none => none

/-- The greeting check `message_text in ["hi", "hello", "/start"]`. -/
def isGreetingText (text : String) : Bool :=
  text = "hi" || text = "hello" || text = "/start"

/-! ## Association-list helpers for the two binding maps -/

/-- Replace (or append) the entry for a key in an association list. -/
def setEntry {α : Type} : List (String × α) → String → α → List (String × α)
  | [], k, v => [(k, v)]
  | (k', v') :: t, k, v =>
    if k' = k then (k, v) :: t else (k', v') :: setEntry t k v

/-- Python `set.add` on a list-modelled set: append if absent. -/
def addIfAbsent (l : List String) (x : String) : List String :=
  if x ∈ l then l else l ++ [x]

/-! ## IMQbroker.send_message -/

namespace IMQbroker

/-- `IMQbroker.send_message`: routes to the Telegram or LINE HTTP API.
The call is recorded in the `imSends` trace; the returned boolean is
`False` for an unsupported platform (no HTTP request is attempted), and
otherwise reflects the HTTP outcome `env.imSendOk`. The function
catches every exception internally and never raises. -/
def send_message (env : Env) (st : World) (chat_id text platform : String)
    (_user_id _username : Option String) : Bool × World :=
  let st1 := { st with imSends := st.imSends ++ [{ chat := chat_id, text := text, platform := platform }] }
  if platform = "telegram" || platform = "line" then (env.imSendOk, st1)
  else (false, st1)

end IMQbroker

/-! ## MessageAPI (the MQTT connection pool of IoTQbroker.py) -/

/-- The fields of a `MessageAPI` instance that the core uses. -/
structure MessageAPI where
  platform : String
  device_id : String
  chat_id : String
deriving DecidableEq

/-- `MessageAPI.__init__`: reuse the pooled client for `chat_id or
"default"`, otherwise create a client, insert it into `client_pool`
(before any connection attempt), and call `connect`, which makes up to
5 attempts with fixed backoff and re-raises after the fifth failure.
A failed construction still leaves the new client in the pool. -/
def mkMessageAPI (env : Env) (st : World) (platform device_id : String)
    (chat_id : Option String) : Except Unit MessageAPI × World :=
  let eff := pyOr chat_id "default"
  if eff ∈ st.clientPool then
    (.ok { platform := platform, device_id := device_id, chat_id := eff }, st)
  else
    let st1 := { st with clientPool := eff :: st.clientPool }
    if env.connectOk then
      (.ok { platform := platform, device_id := device_id, chat_id := eff },
       { st1 with connectAttempts := st1.connectAttempts + 1 })
    else
      (.error (), { st1 with connectAttempts := st1.connectAttempts + 5 })

/-- `MessageAPI.send_message`: one `client.publish` attempt inside
`try/except`; returns `False` if the publish raises, `True` otherwise.
No reconnect and no retry. -/
def MessageAPI.send_message (env : Env) (st : World) (topic : String)
    (m : Envelope) : Bool × World :=
  let st1 := { st with publishAttempts := st.publishAttempts + 1 }
  if env.publishRaises then (false, st1)
  else (true, { st1 with mqttPublishes := st1.mqttPublishes ++ [{ topic := topic, payload := m }] })

/-! ## Device (IoTQbroker.py) -/

/-- A `Device` object: constructed transiently per request; `group_id`
and `group_members` start empty on every construction. -/
structure Device where
  name : String
  device_id : String
  chat_id : Option String
  platform : String
  group_id : Option String
  group_members : List String
  manufacturer : String
  device_type : String
deriving DecidableEq

/-- `Device.__init__`: derives manufacturer and device type from
substring matches on the device id and constructs the `MessageAPI`
(which may raise on connection failure). -/
def mkDevice (env : Env) (st : World) (name device_id platform : String)
    (chat_id : Option String) : Except Unit Device × World :=
  let manufacturer := if containsSub "raspberrypi".data device_id.data then "raspberrypi" else "esp32"
  let dtype := if containsSub "light".data device_id.data then "light" else "fan"
  match mkMessageAPI env st platform device_id chat_id with
  | (.ok _, st1) =>
    (.ok { name := name, device_id := device_id, chat_id := chat_id,
           platform := platform, group_id := none, group_members := [],
           manufacturer := manufacturer, device_type := dtype }, st1)
  | (.error e, st1) => (.error e, st1)

/-- The join notification text of `Device.bind_user`. -/
def joinText (chat_id dev : String) : String :=
  "User " ++ chat_id ++ " has joined the group for device " ++ dev

/-- The join-notification loop of `Device.bind_user`: for every group
member other than the new chat id, send
"User {chat_id} has joined the group for device {device_id}". -/
def notifyJoin (env : Env) (st : World) : List String → String → String → String → World
  | [], _, _, _ => st
  | m :: ms, chat_id, dev, platform =>
    if m = chat_id then notifyJoin env st ms chat_id dev platform
    else
      notifyJoin env
        (IMQbroker.send_message env st m (joinText chat_id dev) platform none none).2
        ms chat_id dev platform

/-- `Device.bind_user`: inserts the chat id into the in-memory
`bindings` set for the device; on the device object, the first binder
becomes group owner, later distinct binders are appended to
`group_members` and the existing members are notified. Returns the
updated device object together with `True` (the `except` branch that
returns `False` is unreachable in the model since no modelled operation
in the body raises). -/
def Device.bind_user (env : Env) (st : World) (d : Device)
    (chat_id platform : String) : Bool × Device × World :=
  let cur := (st.bindings.lookup d.device_id).getD []
  let st1 := { st with bindings := setEntry st.bindings d.device_id (addIfAbsent cur chat_id) }
  match d.group_id with
  | none =>
    (true, { d with group_id := some chat_id,
                    group_members := addIfAbsent d.group_members chat_id }, st1)
  | some _ =>
    if chat_id ∈ d.group_members then (true, d, st1)
    else
      let d' := { d with group_members := d.group_members ++ [chat_id] }
      (true, d', notifyJoin env st1 d'.group_members chat_id d.device_id platform)

/-- The command envelope shared by `Device.enable` / `disable` /
`get_status`. -/
def mkEnvelope (command : String) (chat_id : Option String)
    (platform device_id : String) (user_id username bot_token : Option String) : Envelope :=
  { command := command, chat_id := chat_id, platform := platform,
    device_id := device_id, user_id := user_id, username := username,
    bot_token := pyOr bot_token (if platform = "telegram" then TELEGRAM_BOT_TOKEN else LINE_ACCESS_TOKEN) }

/-- `Device.enable`: publish the "on" envelope to
`{manufacturer}/{device_type}/enable`. -/
def Device.enable (env : Env) (st : World) (d : Device) (chat_id : Option String)
    (platform : String) (user_id username bot_token : Option String) : Bool × World :=
  MessageAPI.send_message env st (d.manufacturer ++ "/" ++ d.device_type ++ "/enable")
    (mkEnvelope "on" chat_id platform d.device_id user_id username bot_token)

/-- `Device.disable`: publish the "off" envelope to
`{manufacturer}/{device_type}/disable`. -/
def Device.disable (env : Env) (st : World) (d : Device) (chat_id : Option String)
    (platform : String) (user_id username bot_token : Option String) : Bool × World :=
  MessageAPI.send_message env st (d.manufacturer ++ "/" ++ d.device_type ++ "/disable")
    (mkEnvelope "off" chat_id platform d.device_id user_id username bot_token)

/-- `Device.get_status`: publish the "get_status" envelope to
`{manufacturer}/{device_type}/get_status`. -/
def Device.get_status (env : Env) (st : World) (d : Device) (chat_id : Option String)
    (platform : String) (user_id username bot_token : Option String) : Bool × World :=
  MessageAPI.send_message env st (d.manufacturer ++ "/" ++ d.device_type ++ "/get_status")
    (mkEnvelope "get_status" chat_id platform d.device_id user_id username bot_token)

/-! ## IoTParse_Message (IoTQbroker.py) -/

/-- The result dict of `IoTParse_Message`: a boolean `success` key plus
the optional `action`, `device_id` and `message` keys. -/
structure PResult where
  success : Bool
  action : Option String := none
  device_id : Option String := none
  message : Option String := none
deriving DecidableEq

/-- The help text sent for `hi` / `hello` / `/start`. -/
def helpText (username : String) : String :=
  "Hi, " ++ username ++ "\n" ++
  "This is an IoT control bot\n" ++
  "Use the following commands:\n" ++
  "turn on {device_id} to enable device\n" ++
  "turn off {device_id} to disable device\n" ++
  "get status {device_id} to get device status\n" ++
  "/Bind {device_id} to bind to device"

/-- The "Invalid device ID" reply enumerating the allow-list. -/
def invalidDeviceText (device_id : String) : String :=
  "Invalid device ID: " ++ device_id ++ ". Available devices: " ++
  String.intercalate ", " SUPPORTED_DEVICES

/-- The `try` body of `IoTParse_Message`, after normalisation of the
text (lower-case and strip happen in `IoTParse_Message`). The result
is `.error ()` exactly when an internal exception propagates (device
construction failing to connect); all side effects performed before the
raise are kept in the returned `World`. -/
def IoTParse_core (env : Env) (st : World) (text : String) (device : Device)
    (chat_id platform : String) (user_id0 username0 : Option String) :
    Except Unit PResult × World :=
  let username := pyOr username0 "User"
  let user_id := pyOr user_id0 "Unknown"
  let bot_token := if platform = "telegram" then TELEGRAM_BOT_TOKEN else LINE_ACCESS_TOKEN
  if isGreetingText text then
    let st1 := (IMQbroker.send_message env st chat_id (helpText username) platform (some user_id) (some username)).2
    (.ok { success := true, action := some "Help" }, st1)
  else
    match matchBind text with
    | some dev_id =>
      if dev_id ∈ SUPPORTED_DEVICES then
        match mkDevice env st device.name dev_id platform (some chat_id) with
        | (.error e, st1) => (.error e, st1)
        | (.ok tdev, st1) =>
          let r := Device.bind_user env st1 tdev chat_id platform
          if r.1 then
            let st3 := (IMQbroker.send_message env r.2.2 chat_id
              ("Successfully bound to device " ++ dev_id) platform (some user_id) (some username)).2
            (.ok { success := true, action := some "Bind", device_id := some dev_id }, st3)
          else
            let st3 := (IMQbroker.send_message env r.2.2 chat_id
              ("Failed to bind to device " ++ dev_id) platform (some user_id) (some username)).2
            (.ok { success := false, message := some "Failed to bind to device" }, st3)
      else
        let st1 := (IMQbroker.send_message env st chat_id (invalidDeviceText dev_id)
          platform (some user_id) (some username)).2
        (.ok { success := false, message := some "Invalid device ID" }, st1)
    | none =>
      let em := matchCmd "turn on" "/enable" text
      let dm := matchCmd "turn off" "/disable" text
      let sm := matchCmd "get status" "/status" text
      let dev_id :=
        match em with
        | some (some d) => d
        | _ =>
          match dm with
          | some (some d) => d
          | _ =>
            match sm with
            | some (some d) => d
            | _ => device.device_id
      if dev_id ∈ SUPPORTED_DEVICES then
        match mkDevice env st device.name dev_id platform (some chat_id) with
        | (.error e, st1) => (.error e, st1)
        | (.ok tdev, st1) =>
          match em with
          | some _ =>
            let r := Device.enable env st1 tdev (some chat_id) platform (some user_id) (some username) (some bot_token)
            if r.1 then
              let st3 := (IMQbroker.send_message env r.2 chat_id
                ("Command received: Enable " ++ dev_id) platform (some user_id) (some username)).2
              (.ok { success := true, action := some "Enable", device_id := some dev_id }, st3)
            else
              let st3 := (IMQbroker.send_message env r.2 chat_id
                ("Failed to enable device " ++ dev_id) platform (some user_id) (some username)).2
              (.ok { success := false, message := some "Failed to enable device" }, st3)
          | none =>
            match dm with
            | some _ =>
              let r := Device.disable env st1 tdev (some chat_id) platform (some user_id) (some username) (some bot_token)
              if r.1 then
                let st3 := (IMQbroker.send_message env r.2 chat_id
                  ("Command received: Disable " ++ dev_id) platform (some user_id) (some username)).2
                (.ok { success := true, action := some "Disable", device_id := some dev_id }, st3)
              else
                let st3 := (IMQbroker.send_message env r.2 chat_id
                  ("Failed to disable device " ++ dev_id) platform (some user_id) (some username)).2
                (.ok { success := false, message := some "Failed to disable device" }, st3)
            | none =>
              match sm with
              | some _ =>
                let r := Device.get_status env st1 tdev (some chat_id) platform (some user_id) (some username) (some bot_token)
                if r.1 then
                  let st3 := (IMQbroker.send_message env r.2 chat_id
                    ("Command received: Get status of " ++ dev_id) platform (some user_id) (some username)).2
                  (.ok { success := true, action := some "GetStatus", device_id := some dev_id }, st3)
                else
                  let st3 := (IMQbroker.send_message env r.2 chat_id
                    ("Failed to get status of device " ++ dev_id) platform (some user_id) (some username)).2
                  (.ok { success := false, message := some "Failed to get device status" }, st3)
              | none =>
                let st1 := (IMQbroker.send_message env st chat_id
                  "Invalid command. Please use /start to view help." platform (some user_id) (some username)).2
                (.ok { success := false, message := some "Invalid command" }, st1)
      else
        let st1 := (IMQbroker.send_message env st chat_id (invalidDeviceText dev_id)
          platform (some user_id) (some username)).2
        (.ok { success := false, message := some "Invalid device ID" }, st1)

/-- `IoTParse_Message`: normalises the text, runs the `try` body, and on
an internal exception sends the generic error reply and returns the
"Error processing command" dict. -/
def IoTParse_Message (env : Env) (st : World) (raw : String) (device : Device)
    (chat_id platform : String) (user_id0 username0 : Option String) : PResult × World :=
  let text := pyStrip (pyLower raw)
  match IoTParse_core env st text device chat_id platform user_id0 username0 with
  | (.ok r, st1) => (r, st1)
  | (.error _, st1) =>
    let st2 := (IMQbroker.send_message env st1 chat_id
      "An error occurred while processing your command. Please try again."
      platform (some (pyOr user_id0 "Unknown")) (some (pyOr username0 "User"))).2
    ({ success := false, message := some "Error processing command" }, st2)

/-! ## config.save_binding -/

/-- `config.save_binding`: load the persisted bindings document, return
`True` without writing when an identical (chat_id, platform) record
already exists for the device, otherwise append the record and write
the document back (file IO is modelled as always succeeding, so the
`except` branch returning `False` is unreachable). -/
def save_binding (st : World) (device_id chat_id platform : String) : Bool × World :=
  let cur := (st.persistedBindings.lookup device_id).getD []
  if (chat_id, platform) ∈ cur then (true, st)
  else
    (true, { st with persistedBindings := setEntry st.persistedBindings device_id (cur ++ [(chat_id, platform)]) })

/-! ## IMLine.py: the LINE adapter's greeting and send -/

namespace IMLine

/-- `IMLine.check_and_add_greeted_user`: returns `True` and records the
chat id exactly when it has not been greeted by this adapter before. -/
def check_and_add_greeted_user (st : World) (chat_id : String) : Bool × World :=
  if chat_id ∈ st.greetedLine then (false, st)
  else (true, { st with greetedLine := chat_id :: st.greetedLine })

/-- `IMLine.send_message`: prepends "Hi, {display_name or User}\n" on
first contact (per the adapter's own greeted set) and pushes the
message; the push is recorded in `linePushes`, the result reflects the
HTTP outcome. -/
def send_message (env : Env) (st : World) (dest text : String)
    (display_name : Option String) : Bool × World :=
  let r := check_and_add_greeted_user st dest
  let greeting := if r.1 then "Hi, " ++ pyOr display_name "User" ++ "\n" else ""
  let st2 := { r.2 with linePushes := r.2.linePushes ++ [{ dest := dest, text := greeting ++ text }] }
  (env.linePushOk, st2)

end IMLine

/-! ## IMQbroker.callback (the status-relay consumer) -/

/-- The broker message body as seen by the callback: either a payload
that fails JSON decoding, or a decoded JSON object with the optional
fields the callback reads (`none` = key absent). -/
inductive Body where
  | malformed
  | obj (device_status device_id user_id username bot_token : Option String)
deriving DecidableEq

/-- How the callback settles the delivery: `basic_ack`, or `basic_nack`
with `requeue=False`. -/
inductive Ack where
  | acked
  | nacked
deriving DecidableEq

namespace IMQbroker

/-- The third-person fan-out message of the callback. -/
def otherText (device_id status username : String) : String :=
  "Device " ++ device_id ++ " has been set to " ++ status ++ " by user " ++ username

/-- The status message for the initiating user, before the optional
greeting is prepended. -/
def statusText (device_id status username : String) : String :=
  "Device " ++ device_id ++ " is now " ++ status ++ ", operated by user " ++ username

/-- The group-member notification block of the callback: extend the
notified set with the device object's group members and send the
third-person message to every member other than the initiating chat id
(dead through this consumer, since the transient device always has an
empty group, but modelled for fidelity). -/
def groupSends (env : Env) (st : World) : List String → String → String → String →
    String → String → Option String → World
  | [], _, _, _, _, _, _ => st
  | m :: ms, chat_id, device_id, status, username, platform, user_id =>
    if m = chat_id then
      groupSends env st ms chat_id device_id status username platform user_id
    else
      groupSends env
        (IMQbroker.send_message env st m (otherText device_id status username)
          platform user_id (some username)).2
        ms chat_id device_id status username platform user_id

/-- The notified-set extension of the group-member block. -/
def groupNotify (env : Env) (st : World) (members : List String)
    (chat_id device_id status username platform : String) (user_id : Option String) :
    List String × World :=
  (members.foldl addIfAbsent [chat_id],
   groupSends env st members chat_id device_id status username platform user_id)

/-- The fan-out loop over the in-memory bound users: notify every bound
user not yet notified, accumulating the notified set. -/
def fanOut (env : Env) (st : World) : List String → List String → String →
    String → String → String → Option String → World
  | [], _, _, _, _, _, _ => st
  | bu :: rest, notified, device_id, status, username, platform, user_id =>
    if bu ∈ notified then
      fanOut env st rest notified device_id status username platform user_id
    else
      fanOut env
        (IMQbroker.send_message env st bu (otherText device_id status username)
          platform user_id (some username)).2
        rest (notified ++ [bu]) device_id status username platform user_id

/-- `IMQbroker.callback`: the per-message state machine of the status
relay. Malformed JSON is nacked without requeue before anything else;
then the routing key is split on "/" and the message is acked and
dropped when it has fewer than 3 segments, when the event segment is
not "status_update", or when `device_status` is absent; a transient
`Device` is then constructed (an exception there is caught by the
generic handler and nacked); empty chat id or unknown platform are
acked and dropped; otherwise the initiating user is notified (with a
one-time greeting per `IMQbroker.greeted_users`) and the in-memory
bound users are fanned out to, and the message is acked. -/
def callback (env : Env) (st : World) (routing_key : String) (body : Body) : Ack × World :=
  match body with
  | .malformed => (.nacked, st)
  | .obj dstat did uid uname _btok =>
    let parts := pySplitSlash routing_key
    if parts.length < 3 then (.acked, st)
    else
      let platform := parts.getD 0 ""
      let chat_id := parts.getD 1 ""
      let event := parts.getD 2 "unknown"
      if event ≠ "status_update" then (.acked, st)
      else if dstat = none then (.acked, st)
      else
        let status := dstat.getD ""
        let device_id := did.getD DEVICE_ID
        let username := uname.getD "User"
        match mkDevice env st "LivingRoomLight" device_id "unknown" none with
        | (.error _, st1) => (.nacked, st1)
        | (.ok device, st1) =>
          if chat_id = "" then (.acked, st1)
          else if platform ≠ "telegram" ∧ platform ≠ "line" then (.acked, st1)
          else
            let fresh := chat_id ∉ st1.greetedIMQ
            let greeting := if fresh then "Hi, " ++ username ++ "\n" else ""
            let st2 := if fresh then { st1 with greetedIMQ := chat_id :: st1.greetedIMQ } else st1
            let st3 := (IMQbroker.send_message env st2 chat_id
              (greeting ++ statusText device_id status username)
              platform uid (some username)).2
            let grp :=
              match device.group_id with
              | some _ =>
                if device.group_members ≠ [] then
                  groupNotify env st3 device.group_members chat_id device_id status username platform uid
                else ([chat_id], st3)
              | none => ([chat_id], st3)
            let bound := (grp.2.bindings.lookup device_id).getD []
            (.acked, fanOut env grp.2 bound grp.1 device_id status username platform uid)

end IMQbroker

/-! ## The virtual device executors -/

/-- The cryptographic capability of a device executor: whether the
signing library imported, whether the public key file loaded, and the
outcomes of the timestamp-freshness check and the ECDSA verification
on the request at hand. -/
structure CryptoEnv where
  cryptoAvailable : Bool
  publicKeyLoaded : Bool
  timestampFresh : Bool
  signatureValid : Bool
deriving DecidableEq

/-- `esp32_virtual_device.verify_signature`: refuses (returns `False`)
when the public key or the crypto library is absent; otherwise checks
the timestamp window and then the ECDSA signature, with every
parse/verification exception mapped to `False`. -/
def esp32_verify_signature (c : CryptoEnv) : Bool :=
  if !c.publicKeyLoaded || !c.cryptoAvailable then false
  else if !c.timestampFresh then false
  else c.signatureValid

/-- `raspberry_pi_virtual_device.verify_signature`: skips verification
(returns `True`) when the crypto library or the public key is absent;
otherwise the result is the ECDSA verification outcome (no timestamp
check in this variant), with decode/verify exceptions mapped to
`False`. -/
def pi_verify_signature (c : CryptoEnv) : Bool :=
  if !c.cryptoAvailable || !c.publicKeyLoaded then true
  else c.signatureValid

/-- The three command routes of each executor. -/
inductive DevCmd where
  | enable
  | disable
  | getStatus
deriving DecidableEq

/-- An executor HTTP response: status, message, HTTP code, and the
resulting device state when the command proceeded. -/
structure DevResponse where
  status : String
  message : String
  code : Nat
  state : Option String := none
deriving DecidableEq

/-- The `/Enable`, `/Disable` and `/GetStatus` routes of
`esp32_virtual_device.py` (they differ only in the state written and
the message): refuse with 403 when `verify_signature` fails, with 400
when the device id does not match `config.DEVICE_ID`, and otherwise
perform the command on the device record (held at `prevState`). -/
def esp32_request (cmd : DevCmd) (c : CryptoEnv) (device_id : Option String)
    (prevState : String) : DevResponse :=
  if !esp32_verify_signature c then
    { status := "error", message := "Invalid or expired signature", code := 403 }
  else if device_id ≠ some DEVICE_ID then
    { status := "error", message := "Invalid device_id, expected " ++ DEVICE_ID, code := 400 }
  else
    match cmd with
    | .enable => { status := "success", message := "Device enabled", code := 200, state := some "on" }
    | .disable => { status := "success", message := "Device disabled", code := 200, state := some "off" }
    | .getStatus => { status := "success", message := prevState, code := 200, state := some prevState }

/-- The `/Pi/<device_id>/Enable`, `/Disable` and `/GetStatus` routes of
`raspberry_pi_virtual_device.py`: refuse with 403 when
`verify_signature` fails, with 400 when the device id is not
`raspberrypi_light_001`, and otherwise perform the command. -/
def pi_request (cmd : DevCmd) (c : CryptoEnv) (device_id : String)
    (prevState : String) : DevResponse :=
  if !pi_verify_signature c then
    { status := "error", message := "Invalid or expired signature", code := 403 }
  else if device_id ≠ "raspberrypi_light_001" then
    { status := "error", message := "Invalid device_id, expected raspberrypi_light_001", code := 400 }
  else
    match cmd with
    | .enable => { status := "success", message := "Device enabled", code := 200, state := some "on" }
    | .disable => { status := "success", message := "Device disabled", code := 200, state := some "off" }
    | .getStatus => { status := "success", message := prevState, code := 200, state := some prevState }

/-! ## Concrete scenario data shared by the witnesses and
counterexamples -/

/-- A healthy network: broker reachable, publishes and HTTP sends
succeed. -/
def envOk : Env :=
  { connectOk := true, publishRaises := false, imSendOk := true, linePushOk := true }

/-- A network where `client.publish` raises. -/
def envPubFail : Env :=
  { connectOk := true, publishRaises := true, imSendOk := true, linePushOk := true }

/-- A network where the MQTT broker refuses connections. -/
def envNoBroker : Env :=
  { connectOk := false, publishRaises := false, imSendOk := true, linePushOk := true }

/-- The default device object handed to the webhook handlers
(constructed with the default device id in a pooled state). -/
def defaultDevice : Device :=
  { name := "LivingRoomLight", device_id := DEVICE_ID, chat_id := some "chatA",
    platform := "line", group_id := none, group_members := [],
    manufacturer := "esp32", device_type := "light" }

/-- Characterisation of the sends produced by the fan-out loop: the
bound users not yet in the notified set, in order, each receiving the
third-person message. -/
def fanList (dv s u p : String) : List String → List String → List SendCall
  | [], _ => []
  | bu :: rest, notified =>
    if bu ∈ notified then fanList dv s u p rest notified
    else { chat := bu, text := IMQbroker.otherText dv s u, platform := p } ::
      fanList dv s u p rest (notified ++ [bu])

/-! ## Basic state lemmas -/

/-- `IMQbroker.send_message` only appends the recorded call to
`imSends`; all other state components are untouched. -/
theorem send_message_state (env : Env) (st : World) (c t p : String)
    (u un : Option String) :
    (IMQbroker.send_message env st c t p u un).2 =
      { st with imSends := st.imSends ++ [{ chat := c, text := t, platform := p }] } := by
  unfold IMQbroker.send_message
  split <;> rfl

/-- The state returned by `mkDevice` is the state returned by the
underlying `mkMessageAPI` call. -/
theorem mkDevice_snd (env : Env) (st : World) (n d p : String) (c : Option String) :
    (mkDevice env st n d p c).2 = (mkMessageAPI env st p d c).2 := by
  unfold mkDevice
  rcases h : mkMessageAPI env st p d c with ⟨r, st1⟩
  cases r <;> rfl

/-- `mkMessageAPI` touches only `clientPool` and `connectAttempts`. -/
theorem mkMessageAPI_frame (env : Env) (st : World) (p d : String) (c : Option String) :
    (mkMessageAPI env st p d c).2.bindings = st.bindings ∧
    (mkMessageAPI env st p d c).2.persistedBindings = st.persistedBindings ∧
    (mkMessageAPI env st p d c).2.greetedIMQ = st.greetedIMQ ∧
    (mkMessageAPI env st p d c).2.greetedLine = st.greetedLine ∧
    (mkMessageAPI env st p d c).2.imSends = st.imSends ∧
    (mkMessageAPI env st p d c).2.linePushes = st.linePushes ∧
    (mkMessageAPI env st p d c).2.mqttPublishes = st.mqttPublishes ∧
    (mkMessageAPI env st p d c).2.publishAttempts = st.publishAttempts := by
  by_cases h : pyOr c "default" ∈ st.clientPool
  · simp [mkMessageAPI, h]
  · by_cases hc : env.connectOk <;> simp [mkMessageAPI, h, hc]

/-- `MessageAPI.send_message` touches only `publishAttempts` and
`mqttPublishes`. -/
theorem mqtt_send_frame (env : Env) (st : World) (topic : String) (m : Envelope) :
    (MessageAPI.send_message env st topic m).2.bindings = st.bindings ∧
    (MessageAPI.send_message env st topic m).2.persistedBindings = st.persistedBindings ∧
    (MessageAPI.send_message env st topic m).2.greetedIMQ = st.greetedIMQ ∧
    (MessageAPI.send_message env st topic m).2.greetedLine = st.greetedLine ∧
    (MessageAPI.send_message env st topic m).2.imSends = st.imSends ∧
    (MessageAPI.send_message env st topic m).2.linePushes = st.linePushes ∧
    (MessageAPI.send_message env st topic m).2.clientPool = st.clientPool ∧
    (MessageAPI.send_message env st topic m).2.connectAttempts = st.connectAttempts := by
  by_cases h : env.publishRaises <;> simp [MessageAPI.send_message, h]

/-- The boolean result of a publish is success exactly when the
transport call does not raise. -/
theorem mqtt_send_fst (env : Env) (st : World) (topic : String) (m : Envelope) :
    (MessageAPI.send_message env st topic m).1 = !env.publishRaises := by
  by_cases h : env.publishRaises <;> simp [MessageAPI.send_message, h]

/-! ## Parsing and string lemmas -/

theorem dropPfx_eq_some {p : List Char} : ∀ {s r : List Char},
    dropPfx p s = some r → s = p ++ r := by
  induction p with
  | nil =>
    intro s r h
    simp [dropPfx] at h
    simp [h]
  | cons a ps ih =>
    intro s r h
    cases s with
    | nil => simp [dropPfx] at h
    | cons b bs =>
      by_cases hab : a = b
      · subst hab
        simp only [dropPfx, if_pos rfl] at h
        simp [ih h]
      · simp [dropPfx, hab] at h

theorem dropPfx_append (p r : List Char) : dropPfx p (p ++ r) = some r := by
  induction p with
  | nil => simp [dropPfx]
  | cons a ps ih => simp [dropPfx, ih]

theorem word_not_space {c : Char} (h : isWordChar c = true) : isPySpace c = false := by
  by_contra hc
  have hs : isPySpace c = true := by
    revert hc
    cases isPySpace c <;> simp
  have hor : c = ' ' ∨ c = '\t' ∨ c = '\n' ∨ c = '\r' ∨ c = '\x0b' ∨ c = '\x0c' := by
    simpa [isPySpace, or_assoc] using hs
  rcases hor with h1 | h1 | h1 | h1 | h1 | h1 <;> subst h1 <;>
    exact absurd h (by decide)

/-! ## Device-construction lemmas -/

/-- The state frame of any `mkDevice` call, read off a result
equation. -/
theorem mkDevice_eq_frame {env : Env} {st : World} {n d p : String} {c : Option String}
    {x : Except Unit Device} {st1 : World} (heq : mkDevice env st n d p c = (x, st1)) :
    st1.persistedBindings = st.persistedBindings ∧ st1.bindings = st.bindings ∧
    st1.greetedIMQ = st.greetedIMQ ∧ st1.greetedLine = st.greetedLine ∧
    st1.imSends = st.imSends ∧ st1.linePushes = st.linePushes := by
  have h2 : (mkDevice env st n d p c).2 = st1 := by rw [heq]
  rw [mkDevice_snd] at h2
  have hf := mkMessageAPI_frame env st p d c
  exact ⟨h2 ▸ hf.2.1, h2 ▸ hf.1, h2 ▸ hf.2.2.1, h2 ▸ hf.2.2.2.1,
         h2 ▸ hf.2.2.2.2.1, h2 ▸ hf.2.2.2.2.2.1⟩

/-- Specialisation of the frame to the persisted bindings document. -/
theorem persisted_of_mkDevice {env : Env} {st : World} {n d p : String} {c : Option String}
    {x : Except Unit Device} {st1 : World} (heq : mkDevice env st n d p c = (x, st1)) :
    st1.persistedBindings = st.persistedBindings :=
  (mkDevice_eq_frame heq).1

/-- With a reachable broker, device construction succeeds and yields a
fresh device object: empty group, the requested device id. -/
theorem mkDevice_ok (env : Env) (st : World) (n d p : String) (c : Option String)
    (h : env.connectOk = true) :
    ∃ dev st1, mkDevice env st n d p c = (.ok dev, st1) ∧
      dev.device_id = d ∧ dev.group_id = none ∧ dev.group_members = [] := by
  unfold mkDevice mkMessageAPI
  by_cases hm : pyOr c "default" ∈ st.clientPool
  · simp only [hm, if_true]
    exact ⟨_, _, rfl, rfl, rfl, rfl⟩
  · simp only [hm, if_false, h, if_true]
    exact ⟨_, _, rfl, rfl, rfl, rfl⟩

/-- Every successfully constructed device object has an empty group and
carries the requested device id. -/
theorem mkDevice_ok_fields {env : Env} {st : World} {n d p : String} {c : Option String}
    {dev : Device} {st1 : World} (heq : mkDevice env st n d p c = (.ok dev, st1)) :
    dev.group_id = none ∧ dev.group_members = [] ∧ dev.device_id = d := by
  unfold mkDevice at heq
  rcases h : mkMessageAPI env st p d c with ⟨r, st2⟩
  rw [h] at heq
  cases r with
  | ok api =>
    simp only [Prod.mk.injEq, Except.ok.injEq] at heq
    obtain ⟨h1, _⟩ := heq
    rw [← h1]
    exact ⟨rfl, rfl, rfl⟩
  | error e => simp at heq

/-! ## Association-list and counting lemmas -/

theorem lookup_setEntry {α : Type} (m : List (String × α)) (k : String) (v : α) :
    (setEntry m k v).lookup k = some v := by
  induction m with
  | nil => simp [setEntry, List.lookup]
  | cons hd t ih =>
    obtain ⟨k', v'⟩ := hd
    by_cases hk : k' = k
    · subst hk
      simp [setEntry, List.lookup]
    · have hb : (k == k') = false := beq_eq_false_iff_ne.mpr (Ne.symm hk)
      simp [setEntry, hk, List.lookup, hb, ih]

theorem mem_addIfAbsent (l : List String) (x : String) : x ∈ addIfAbsent l x := by
  by_cases h : x ∈ l <;> simp [addIfAbsent, h]

theorem count_addIfAbsent (l : List String) (x : String) (h : l.count x ≤ 1) :
    (addIfAbsent l x).count x = 1 := by
  by_cases hm : x ∈ l
  · have h1 : 1 ≤ l.count x := List.count_pos_iff.mpr hm
    simp only [addIfAbsent, hm, if_true]
    exact le_antisymm h h1
  · simp [addIfAbsent, hm, List.count_append, List.count_eq_zero.mpr hm]

theorem addIfAbsent_idem (l : List String) (x : String) :
    addIfAbsent (addIfAbsent l x) x = addIfAbsent l x := by
  by_cases h : x ∈ l <;> simp [addIfAbsent, h]

/-- `notifyJoin` only appends to `imSends`. -/
theorem notifyJoin_frame (env : Env) (members : List String) (st : World)
    (c dv p : String) :
    (notifyJoin env st members c dv p).bindings = st.bindings ∧
    (notifyJoin env st members c dv p).persistedBindings = st.persistedBindings ∧
    (notifyJoin env st members c dv p).clientPool = st.clientPool ∧
    (notifyJoin env st members c dv p).greetedIMQ = st.greetedIMQ ∧
    (notifyJoin env st members c dv p).greetedLine = st.greetedLine := by
  induction members generalizing st with
  | nil => exact ⟨rfl, rfl, rfl, rfl, rfl⟩
  | cons m ms ih =>
    by_cases hm : m = c
    · simpa [notifyJoin, hm] using ih st
    · simpa [notifyJoin, hm, send_message_state] using
        ih { st with imSends := st.imSends ++ [{ chat := m, text := joinText c dv, platform := p }] }

/-- `Device.bind_user` returns `True` and updates the in-memory
bindings map by inserting the chat id into the device's set; the
persisted bindings document is untouched. -/
theorem bind_user_spec (env : Env) (st : World) (d : Device) (C P : String) :
    (Device.bind_user env st d C P).1 = true ∧
    (Device.bind_user env st d C P).2.2.bindings =
      setEntry st.bindings d.device_id
        (addIfAbsent ((st.bindings.lookup d.device_id).getD []) C) ∧
    (Device.bind_user env st d C P).2.2.persistedBindings = st.persistedBindings := by
  simp only [Device.bind_user]
  cases hg : d.group_id with
  | none => simp
  | some g =>
    by_cases hm : C ∈ d.group_members
    · simp [hm]
    · simp only [hm, if_false]
      refine ⟨by simp, ?_, ?_⟩
      · exact (notifyJoin_frame _ _ _ _ _ _).1
      · exact (notifyJoin_frame _ _ _ _ _ _).2.1

/-- `bind_user` on a fresh device object (no group yet): the binder
becomes group owner and no notification is sent. -/
theorem bind_user_fresh (env : Env) (st : World) (d : Device) (C P : String)
    (h : d.group_id = none) :
    Device.bind_user env st d C P =
      (true, { d with group_id := some C, group_members := addIfAbsent d.group_members C },
        { st with bindings := setEntry st.bindings d.device_id
                      (addIfAbsent ((st.bindings.lookup d.device_id).getD []) C) }) := by
  unfold Device.bind_user
  rw [h]

/-- Full characterisation of the join-notification loop: it appends one
join message per member other than the joining chat id. -/
theorem notifyJoin_spec (env : Env) (members : List String) (st : World) (c dv p : String) :
    notifyJoin env st members c dv p =
      { st with imSends := st.imSends ++
                    (members.filter (fun m => m != c)).map
                      (fun m => { chat := m, text := joinText c dv, platform := p }) } := by
  induction members generalizing st with
  | nil => simp [notifyJoin]
  | cons m ms ih =>
    by_cases hm : m = c
    · simp [notifyJoin, hm, ih]
    · simp [notifyJoin, hm, ih, send_message_state]

/-- Full characterisation of the bound-user fan-out loop. -/
theorem fanOut_spec (env : Env) (bound : List String) (notified : List String) (st : World)
    (dv s u p : String) (uid : Option String) :
    IMQbroker.fanOut env st bound notified dv s u p uid =
      { st with imSends := st.imSends ++ fanList dv s u p bound notified } := by
  induction bound generalizing st notified with
  | nil => simp [IMQbroker.fanOut, fanList]
  | cons bu rest ih =>
    by_cases hb : bu ∈ notified
    · simp [IMQbroker.fanOut, fanList, hb, ih]
    · simp [IMQbroker.fanOut, fanList, hb, ih, send_message_state]

/-- Every fan-out send carries the third-person message. -/
theorem fanList_text (dv s u p : String) (bound : List String) : ∀ (notified : List String),
    ∀ x ∈ fanList dv s u p bound notified, x.text = IMQbroker.otherText dv s u := by
  induction bound with
  | nil =>
    intro notified x hx
    simp [fanList] at hx
  | cons bu rest ih =>
    intro notified x hx
    by_cases hb : bu ∈ notified
    · exact ih notified x (by simpa [fanList, hb] using hx)
    · simp only [fanList, hb, if_false] at hx
      rcases List.mem_cons.mp hx with h | h
      · rw [h]
      · exact ih (notified ++ [bu]) x h

/-! ## Projection corollaries used when walking the parser -/

theorem im_send_persisted (env : Env) (st : World) (c t p : String) (u un : Option String) :
    (IMQbroker.send_message env st c t p u un).2.persistedBindings = st.persistedBindings := by
  rw [send_message_state]

theorem im_send_imSends (env : Env) (st : World) (c t p : String) (u un : Option String) :
    (IMQbroker.send_message env st c t p u un).2.imSends =
      st.imSends ++ [{ chat := c, text := t, platform := p }] := by
  rw [send_message_state]

theorem mqtt_send_persisted (env : Env) (st : World) (topic : String) (m : Envelope) :
    (MessageAPI.send_message env st topic m).2.persistedBindings = st.persistedBindings :=
  (mqtt_send_frame env st topic m).2.1

theorem mqtt_send_imSends (env : Env) (st : World) (topic : String) (m : Envelope) :
    (MessageAPI.send_message env st topic m).2.imSends = st.imSends :=
  (mqtt_send_frame env st topic m).2.2.2.2.1

theorem bind_user_persisted (env : Env) (st : World) (d : Device) (C P : String) :
    (Device.bind_user env st d C P).2.2.persistedBindings = st.persistedBindings :=
  (bind_user_spec env st d C P).2.2

/-! ## The try/except wrapper of IoTParse_Message -/

/-- When the `try` body returns normally, `IoTParse_Message` passes the
result dict and the body's state through unchanged. -/
theorem IoTParse_Message_of_core_ok {env : Env} {st : World} {raw : String}
    {device : Device} {chat p : String} {uid un : Option String} {r : PResult}
    (h : (IoTParse_core env st (pyStrip (pyLower raw)) device chat p uid un).1 = .ok r) :
    (IoTParse_Message env st raw device chat p uid un).1 = r ∧
    (IoTParse_Message env st raw device chat p uid un).2 =
      (IoTParse_core env st (pyStrip (pyLower raw)) device chat p uid un).2 := by
  simp only [IoTParse_Message]
  rcases hc : IoTParse_core env st (pyStrip (pyLower raw)) device chat p uid un with ⟨cr, cst⟩
  rw [hc] at h
  cases cr with
  | ok rr =>
    have h2 : rr = r := Except.ok.inj h
    subst h2
    exact ⟨rfl, rfl⟩
  | error e => exact Except.noConfusion h

/-- When the `try` body raises, `IoTParse_Message` sends the generic
error reply and returns the "Error processing command" dict. -/
theorem IoTParse_Message_of_core_error {env : Env} {st : World} {raw : String}
    {device : Device} {chat p : String} {uid un : Option String}
    (h : (IoTParse_core env st (pyStrip (pyLower raw)) device chat p uid un).1 = .error ()) :
    (IoTParse_Message env st raw device chat p uid un).1 =
      { success := false, message := some "Error processing command" } := by
  simp only [IoTParse_Message]
  rcases hc : IoTParse_core env st (pyStrip (pyLower raw)) device chat p uid un with ⟨cr, cst⟩
  rw [hc] at h
  cases cr with
  | ok rr => exact Except.noConfusion h
  | error e => rfl

/-! ## Symbolic runs of the parser on the three command shapes -/

/-- A text that matches the enable pattern with device token `D`, with
`D` supported and the broker healthy: the parser dispatches Enable. -/
theorem core_enable_ok (env : Env) (st : World) (text : String) (device : Device)
    (chat p : String) (uid un : Option String) (D : String)
    (hg : isGreetingText text = false) (hb : matchBind text = none)
    (hcmd : matchCmd "turn on" "/enable" text = some (some D))
    (hD : D ∈ SUPPORTED_DEVICES) (hc : env.connectOk = true)
    (hp : env.publishRaises = false) :
    (IoTParse_core env st text device chat p uid un).1 =
      .ok { success := true, action := some "Enable", device_id := some D } ∧
    (IoTParse_core env st text device chat p uid un).2.persistedBindings =
      st.persistedBindings := by
  obtain ⟨dev, st1, heq, hdid, hgid, hmem⟩ := mkDevice_ok env st device.name D p (some chat) hc
  have hfr := mkDevice_eq_frame heq
  constructor
  · simp [IoTParse_core, hg, hb, hcmd, hD, heq, Device.enable, mqtt_send_fst, hp]
  · simp [IoTParse_core, hg, hb, hcmd, hD, heq, Device.enable, mqtt_send_fst, hp,
      im_send_persisted, mqtt_send_persisted, hfr.1]

/-- A text that matches the enable pattern with an unsupported device
token: the parser fails with "Invalid device ID" and sends the
enumeration of the allow-list to the user. -/
theorem core_enable_invalid (env : Env) (st : World) (text : String) (device : Device)
    (chat p : String) (uid un : Option String) (D : String)
    (hg : isGreetingText text = false) (hb : matchBind text = none)
    (hcmd : matchCmd "turn on" "/enable" text = some (some D))
    (hD : D ∉ SUPPORTED_DEVICES) :
    (IoTParse_core env st text device chat p uid un).1 =
      .ok { success := false, message := some "Invalid device ID" } ∧
    (IoTParse_core env st text device chat p uid un).2 =
      { st with imSends := st.imSends ++
                    [{ chat := chat, text := invalidDeviceText D, platform := p }] } := by
  constructor
  · simp [IoTParse_core, hg, hb, hcmd, hD]
  · simp [IoTParse_core, hg, hb, hcmd, hD, send_message_state]

/-- A `/bind` text with a supported device id and a healthy broker: the
parser binds the chat, replies with the confirmation (and nothing
else), and leaves the persisted bindings document unchanged. -/
theorem core_bind_ok (env : Env) (st : World) (text : String) (device : Device)
    (chat p : String) (uid un : Option String) (D : String)
    (hg : isGreetingText text = false) (hb : matchBind text = some D)
    (hD : D ∈ SUPPORTED_DEVICES) (hc : env.connectOk = true) :
    (IoTParse_core env st text device chat p uid un).1 =
      .ok { success := true, action := some "Bind", device_id := some D } ∧
    (IoTParse_core env st text device chat p uid un).2.imSends =
      st.imSends ++ [{ chat := chat, text := "Successfully bound to device " ++ D, platform := p }] ∧
    (IoTParse_core env st text device chat p uid un).2.persistedBindings =
      st.persistedBindings := by
  obtain ⟨dev, st1, heq, hdid, hgid, hmem⟩ := mkDevice_ok env st device.name D p (some chat) hc
  have hfr := mkDevice_eq_frame heq
  have hbind := bind_user_fresh env st1 dev chat p hgid
  refine ⟨?_, ?_, ?_⟩
  · simp [IoTParse_core, hg, hb, hD, heq, hbind]
  · simp [IoTParse_core, hg, hb, hD, heq, hbind, im_send_imSends, hfr.2.2.2.2.1]
  · simp [IoTParse_core, hg, hb, hD, heq, hbind, im_send_persisted, hfr.1]

/-! ## IMLine send lemmas -/

/-- `IMLine.send_message` to an already-greeted chat id pushes the raw
text with no greeting prepended and leaves the greeted set unchanged. -/
theorem line_send_greeted (env : Env) (st : World) (dest text : String) (dn : Option String)
    (h : dest ∈ st.greetedLine) :
    IMLine.send_message env st dest text dn =
      (env.linePushOk,
       { st with linePushes := st.linePushes ++ [{ dest := dest, text := text }] }) := by
  simp [IMLine.send_message, IMLine.check_and_add_greeted_user, h]

/-- `IMLine.send_message` to a not-yet-greeted chat id prepends the
greeting and records the chat id in the adapter's greeted set. -/
theorem line_send_fresh (env : Env) (st : World) (dest text : String) (dn : Option String)
    (h : dest ∉ st.greetedLine) :
    IMLine.send_message env st dest text dn =
      (env.linePushOk,
       { st with greetedLine := dest :: st.greetedLine,
                 linePushes := st.linePushes ++
                   [{ dest := dest, text := "Hi, " ++ pyOr dn "User" ++ "\n" ++ text }] }) := by
  simp [IMLine.send_message, IMLine.check_and_add_greeted_user, h]

/-! ## Whole-parser walks -/

/-- No branch of the parser body ever writes the persisted bindings
document. -/
theorem core_persisted (env : Env) (st : World) (text : String) (device : Device)
    (chat p : String) (uid un : Option String) :
    (IoTParse_core env st text device chat p uid un).2.persistedBindings =
      st.persistedBindings := by
  simp only [IoTParse_core]
  repeat' split
  all_goals try simp only [im_send_persisted, bind_user_persisted, Device.enable,
    Device.disable, Device.get_status, mqtt_send_persisted]
  all_goals solve_by_elim [persisted_of_mkDevice]

/-- Every normal return of the parser body is a well-formed result
dict: success with an action, or failure with a message. -/
theorem core_wf (env : Env) (st : World) (text : String) (device : Device)
    (chat p : String) (uid un : Option String) :
    (IoTParse_core env st text device chat p uid un).1 = .error () ∨
    ∃ r, (IoTParse_core env st text device chat p uid un).1 = .ok r ∧
      ((r.success = true ∧ r.action ≠ none) ∨ (r.success = false ∧ r.message ≠ none)) := by
  simp only [IoTParse_core]
  repeat' split
  all_goals
    first
      | (left; rfl)
      | (right; exact ⟨_, rfl, by simp⟩)

/-- `IoTParse_Message` never writes the persisted bindings document. -/
theorem message_persisted (env : Env) (st : World) (raw : String) (device : Device)
    (chat p : String) (uid un : Option String) :
    (IoTParse_Message env st raw device chat p uid un).2.persistedBindings =
      st.persistedBindings := by
  simp only [IoTParse_Message]
  rcases hc : IoTParse_core env st (pyStrip (pyLower raw)) device chat p uid un with ⟨cr, cst⟩
  have hcp : cst.persistedBindings = st.persistedBindings := by
    have h := core_persisted env st (pyStrip (pyLower raw)) device chat p uid un
    rw [hc] at h
    exact h
  cases cr with
  | ok r => exact hcp
  | error e => simp [im_send_persisted, hcp]

/-! ## The status-relay callback walk -/

/-- One pass of the status-relay callback on a JSON-decodable message:
the greeted set only grows, the LINE-adapter state and both binding
stores are untouched, and when the routing chat id was already greeted
the greeted set is unchanged and every new outbound send carries one of
the two greeting-free message formats. -/
theorem callback_spec (env : Env) (st : World) (rk : String)
    (dstat did uid uname btok : Option String) :
    st.greetedIMQ ⊆ (IMQbroker.callback env st rk (.obj dstat did uid uname btok)).2.greetedIMQ ∧
    (IMQbroker.callback env st rk (.obj dstat did uid uname btok)).2.greetedLine = st.greetedLine ∧
    (IMQbroker.callback env st rk (.obj dstat did uid uname btok)).2.linePushes = st.linePushes ∧
    (IMQbroker.callback env st rk (.obj dstat did uid uname btok)).2.persistedBindings =
      st.persistedBindings ∧
    (IMQbroker.callback env st rk (.obj dstat did uid uname btok)).2.bindings = st.bindings ∧
    ((pySplitSlash rk).getD 1 "" ∈ st.greetedIMQ →
      (IMQbroker.callback env st rk (.obj dstat did uid uname btok)).2.greetedIMQ =
        st.greetedIMQ ∧
      ∀ x ∈ (IMQbroker.callback env st rk (.obj dstat did uid uname btok)).2.imSends,
        x ∈ st.imSends ∨
        x.text = IMQbroker.statusText (did.getD DEVICE_ID) (dstat.getD "") (uname.getD "User") ∨
        x.text = IMQbroker.otherText (did.getD DEVICE_ID) (dstat.getD "") (uname.getD "User")) := by
  by_cases h1 : (pySplitSlash rk).length < 3
  · have hres : IMQbroker.callback env st rk (.obj dstat did uid uname btok) = (.acked, st) := by
      simp [IMQbroker.callback, h1]
    rw [hres]
    exact ⟨fun x hx => hx, rfl, rfl, rfl, rfl,
      fun _ => ⟨rfl, fun x hx => Or.inl hx⟩⟩
  · by_cases h2 : (pySplitSlash rk).getD 2 "unknown" = "status_update"
    case neg =>
      have h2' : (pySplitSlash rk)[2]?.getD "unknown" ≠ "status_update" := by
        simpa [List.getD_eq_getElem?_getD] using h2
      have hres : IMQbroker.callback env st rk (.obj dstat did uid uname btok) = (.acked, st) := by
        simp [IMQbroker.callback, h1, h2']
      rw [hres]
      exact ⟨fun x hx => hx, rfl, rfl, rfl, rfl,
        fun _ => ⟨rfl, fun x hx => Or.inl hx⟩⟩
    case pos =>
      have h2' : (pySplitSlash rk)[2]?.getD "unknown" = "status_update" := by
        simpa [List.getD_eq_getElem?_getD] using h2
      by_cases h3 : dstat = none
      · have hres : IMQbroker.callback env st rk (.obj dstat did uid uname btok) = (.acked, st) := by
          simp [IMQbroker.callback, h1, h2', h3]
        rw [hres]
        exact ⟨fun x hx => hx, rfl, rfl, rfl, rfl,
          fun _ => ⟨rfl, fun x hx => Or.inl hx⟩⟩
      · rcases heq : mkDevice env st "LivingRoomLight" (did.getD DEVICE_ID) "unknown" none
          with ⟨r, st1⟩
        have hfr := mkDevice_eq_frame heq
        cases r with
        | error e =>
          have hres : IMQbroker.callback env st rk (.obj dstat did uid uname btok) =
              (.nacked, st1) := by
            simp [IMQbroker.callback, h1, h2', h3, heq]
          rw [hres]
          exact ⟨hfr.2.2.1 ▸ fun x hx => hx, hfr.2.2.2.1, hfr.2.2.2.2.2, hfr.1, hfr.2.1,
            fun _ => ⟨hfr.2.2.1, fun x hx => Or.inl (hfr.2.2.2.2.1 ▸ hx)⟩⟩
        | ok device =>
          have hdf := mkDevice_ok_fields heq
          by_cases h4 : (pySplitSlash rk).getD 1 "" = ""
          · have h4' : (pySplitSlash rk)[1]?.getD "" = "" := by
              simpa [List.getD_eq_getElem?_getD] using h4
            have hres : IMQbroker.callback env st rk (.obj dstat did uid uname btok) =
                (.acked, st1) := by
              simp [IMQbroker.callback, h1, h2', h3, heq, h4']
            rw [hres]
            exact ⟨hfr.2.2.1 ▸ fun x hx => hx, hfr.2.2.2.1, hfr.2.2.2.2.2, hfr.1, hfr.2.1,
              fun _ => ⟨hfr.2.2.1, fun x hx => Or.inl (hfr.2.2.2.2.1 ▸ hx)⟩⟩
          · have h4' : ¬ (pySplitSlash rk)[1]?.getD "" = "" := by
              simpa [List.getD_eq_getElem?_getD] using h4
            by_cases h5 : ¬ (pySplitSlash rk).getD 0 "" = "telegram" ∧
                ¬ (pySplitSlash rk).getD 0 "" = "line"
            · have h5' : ¬ (pySplitSlash rk)[0]?.getD "" = "telegram" ∧
                  ¬ (pySplitSlash rk)[0]?.getD "" = "line" := by
                simpa [List.getD_eq_getElem?_getD] using h5
              have hres : IMQbroker.callback env st rk (.obj dstat did uid uname btok) =
                  (.acked, st1) := by
                simp [IMQbroker.callback, h1, h2', h3, heq, h4', h5']
              rw [hres]
              exact ⟨hfr.2.2.1 ▸ fun x hx => hx, hfr.2.2.2.1, hfr.2.2.2.2.2, hfr.1, hfr.2.1,
                fun _ => ⟨hfr.2.2.1, fun x hx => Or.inl (hfr.2.2.2.2.1 ▸ hx)⟩⟩
            · have h5' : ¬ (¬ (pySplitSlash rk)[0]?.getD "" = "telegram" ∧
                  ¬ (pySplitSlash rk)[0]?.getD "" = "line") := by
                simpa [List.getD_eq_getElem?_getD] using h5
              by_cases hfresh : (pySplitSlash rk).getD 1 "" ∈ st1.greetedIMQ
              · have hfresh' : (pySplitSlash rk)[1]?.getD "" ∈ st1.greetedIMQ := by
                  simpa [List.getD_eq_getElem?_getD] using hfresh
                refine ⟨?_, ?_, ?_, ?_, ?_, ?_⟩
                · have hgr : (IMQbroker.callback env st rk
                      (.obj dstat did uid uname btok)).2.greetedIMQ = st1.greetedIMQ := by
                    simp [IMQbroker.callback, h1, h2', h3, heq, h4', h5', hfresh', hdf.1,
                      fanOut_spec, send_message_state]
                  rw [hgr, hfr.2.2.1]
                  exact fun x hx => hx
                · simp [IMQbroker.callback, h1, h2', h3, heq, h4', h5', hfresh', hdf.1,
                    fanOut_spec, send_message_state, hfr.2.2.2.1]
                · simp [IMQbroker.callback, h1, h2', h3, heq, h4', h5', hfresh', hdf.1,
                    fanOut_spec, send_message_state, hfr.2.2.2.2.2]
                · simp [IMQbroker.callback, h1, h2', h3, heq, h4', h5', hfresh', hdf.1,
                    fanOut_spec, send_message_state, hfr.1]
                · simp [IMQbroker.callback, h1, h2', h3, heq, h4', h5', hfresh', hdf.1,
                    fanOut_spec, send_message_state, hfr.2.1]
                · intro _
                  constructor
                  · have hgr : (IMQbroker.callback env st rk
                        (.obj dstat did uid uname btok)).2.greetedIMQ = st1.greetedIMQ := by
                      simp [IMQbroker.callback, h1, h2', h3, heq, h4', h5', hfresh', hdf.1,
                        fanOut_spec, send_message_state]
                    rw [hgr, hfr.2.2.1]
                  · intro x hx
                    simp [IMQbroker.callback, h1, h2', h3, heq, h4', h5', hfresh', hdf.1,
                      fanOut_spec, send_message_state, hfr.2.2.2.2.1] at hx
                    rcases hx with h | h | h
                    · exact Or.inl h
                    · rw [h]
                      exact Or.inr (Or.inl rfl)
                    · exact Or.inr (Or.inr (fanList_text _ _ _ _ _ _ x h))
              · have hfresh' : (pySplitSlash rk)[1]?.getD "" ∉ st1.greetedIMQ := by
                  simpa [List.getD_eq_getElem?_getD] using hfresh
                have hg2 : (pySplitSlash rk).getD 1 "" ∉ st.greetedIMQ := by
                  rw [← hfr.2.2.1]
                  exact hfresh
                refine ⟨?_, ?_, ?_, ?_, ?_, ?_⟩
                · have hgr : (IMQbroker.callback env st rk
                      (.obj dstat did uid uname btok)).2.greetedIMQ =
                      (pySplitSlash rk)[1]?.getD "" :: st1.greetedIMQ := by
                    simp [IMQbroker.callback, h1, h2', h3, heq, h4', h5', hfresh', hdf.1,
                      fanOut_spec, send_message_state]
                  rw [hgr, hfr.2.2.1]
                  exact fun x hx => List.mem_cons_of_mem _ hx
                · simp [IMQbroker.callback, h1, h2', h3, heq, h4', h5', hfresh', hdf.1,
                    fanOut_spec, send_message_state, hfr.2.2.2.1]
                · simp [IMQbroker.callback, h1, h2', h3, heq, h4', h5', hfresh', hdf.1,
                    fanOut_spec, send_message_state, hfr.2.2.2.2.2]
                · simp [IMQbroker.callback, h1, h2', h3, heq, h4', h5', hfresh', hdf.1,
                    fanOut_spec, send_message_state, hfr.1]
                · simp [IMQbroker.callback, h1, h2', h3, heq, h4', h5', hfresh', hdf.1,
                    fanOut_spec, send_message_state, hfr.2.1]
                · intro hg
                  exact absurd hg hg2

/-! ## C3 -/

/-- C3: binding is idempotent in both stores. Two `save_binding` calls
with the same (device, chat, platform) both return `True` and leave
exactly one (chat, platform) record for the device in the persisted
document, and two `bind_user` calls with the same chat (each on a
transiently constructed device object for the device, as the `/bind`
command does) both return `True` and leave the in-memory binding set
with exactly one entry for the chat id. The hypotheses state that the
stores start without duplicate entries, the invariant the code
maintains. -/
theorem C3_bind_idempotent (env env2 : Env) (st : World) (D C P : String)
    (d d2 : Device) (hd : d.device_id = D) (hd2 : d2.device_id = D)
    (h1 : ((st.persistedBindings.lookup D).getD []).count (C, P) ≤ 1)
    (h2 : ((st.bindings.lookup D).getD []).count C ≤ 1) :
    (save_binding st D C P).1 = true ∧
    (save_binding (save_binding st D C P).2 D C P).1 = true ∧
    (((save_binding (save_binding st D C P).2 D C P).2.persistedBindings.lookup D).getD
        []).count (C, P) = 1 ∧
    (Device.bind_user env st d C P).1 = true ∧
    (Device.bind_user env2 (Device.bind_user env st d C P).2.2 d2 C P).1 = true ∧
    (((Device.bind_user env2 (Device.bind_user env st d C P).2.2 d2 C P).2.2.bindings.lookup
        D).getD []).count C = 1 := by
  subst hd
  have hsave : (save_binding st d.device_id C P).1 = true ∧
      (save_binding (save_binding st d.device_id C P).2 d.device_id C P).1 = true ∧
      (((save_binding (save_binding st d.device_id C P).2 d.device_id C P).2.persistedBindings.lookup
          d.device_id).getD []).count (C, P) = 1 := by
    by_cases hm : (C, P) ∈ (st.persistedBindings.lookup d.device_id).getD []
    · have h1' : 0 < ((st.persistedBindings.lookup d.device_id).getD []).count (C, P) :=
        List.count_pos_iff.mpr hm
      simp [save_binding, hm]
      omega
    · have hz : ((st.persistedBindings.lookup d.device_id).getD []).count (C, P) = 0 :=
        List.count_eq_zero.mpr hm
      simp [save_binding, hm, lookup_setEntry, List.count_append, hz]
  have hb1 := bind_user_spec env st d C P
  have hb2 := bind_user_spec env2 (Device.bind_user env st d C P).2.2 d2 C P
  refine ⟨hsave.1, hsave.2.1, hsave.2.2, hb1.1, hb2.1, ?_⟩
  simp only [hb2.2.1, hd2, hb1.2.1, lookup_setEntry, Option.getD_some]
  rw [addIfAbsent_idem]
  exact count_addIfAbsent _ _ h2

/-- C3, witness: the double bind at concrete inputs on the empty
state. -/
theorem C3_witness :
    (save_binding World.init "esp32_light_001" "chatA" "line").1 = true ∧
    (save_binding (save_binding World.init "esp32_light_001" "chatA" "line").2
        "esp32_light_001" "chatA" "line").1 = true ∧
    (((save_binding (save_binding World.init "esp32_light_001" "chatA" "line").2
        "esp32_light_001" "chatA" "line").2.persistedBindings.lookup
        "esp32_light_001").getD []).count ("chatA", "line") = 1 ∧
    (Device.bind_user envOk World.init defaultDevice "chatA" "line").1 = true ∧
    (Device.bind_user envOk (Device.bind_user envOk World.init defaultDevice "chatA" "line").2.2
        defaultDevice "chatA" "line").1 = true ∧
    (((Device.bind_user envOk (Device.bind_user envOk World.init defaultDevice "chatA" "line").2.2
        defaultDevice "chatA" "line").2.2.bindings.lookup
        "esp32_light_001").getD []).count "chatA" = 1 :=
  C3_bind_idempotent envOk envOk World.init "esp32_light_001" "chatA" "line"
    defaultDevice defaultDevice rfl rfl (by decide) (by decide)

/-! ## Normalisation of "turn on {D}" texts -/

theorem isGreetingText_turnOn (D : String) : isGreetingText ("turn on " ++ D) = false := rfl

theorem matchBind_turnOn (D : String) : matchBind ("turn on " ++ D) = none := rfl

theorem map_id_of_fix {l : List Char} {f : Char → Char} (h : ∀ x ∈ l, f x = x) :
    l.map f = l := by
  have h2 := List.map_congr_left (g := id) h
  simpa using h2

theorem pyLower_turnOn (D : String) (h : ∀ x ∈ D.data, lowerChar x = x) :
    pyLower ("turn on " ++ D) = "turn on " ++ D := by
  apply String.ext
  show ("turn on " ++ D).data.map lowerChar = ("turn on " ++ D).data
  rw [String.data_append, List.map_append]
  have h1 : "turn on ".data.map lowerChar = "turn on ".data := by decide
  rw [h1, map_id_of_fix h, ← String.data_append]

theorem pyStrip_turnOn (D : String) (hne : D.data ≠ [])
    (hw : D.data.all isWordChar = true) :
    pyStrip ("turn on " ++ D) = "turn on " ++ D := by
  apply String.ext
  show ((("turn on " ++ D).data.dropWhile isPySpace).reverse.dropWhile isPySpace).reverse =
    ("turn on " ++ D).data
  have hd : ("turn on " ++ D).data = 't' :: ("urn on ".data ++ D.data) := by
    rw [String.data_append]
    exact rfl
  rw [hd]
  rw [List.dropWhile_cons]
  have ht : isPySpace 't' = false := by decide
  simp only [ht, Bool.false_eq_true, if_false]
  rcases hrev : D.data.reverse with _ | ⟨y, ys⟩
  · rw [List.reverse_eq_nil_iff] at hrev
    exact absurd hrev hne
  · have hy : y ∈ D.data := by
      have h1 : y ∈ D.data.reverse := by
        rw [hrev]
        exact List.mem_cons_self _ _
      exact List.mem_reverse.mp h1
    have hys : isPySpace y = false := word_not_space (List.all_eq_true.mp hw y hy)
    have hrv : ('t' :: ("urn on ".data ++ D.data)).reverse =
        y :: (ys ++ ("urn on ".data.reverse ++ ['t'])) := by
      rw [List.reverse_cons, List.reverse_append, hrev]
      simp
    rw [hrv, List.dropWhile_cons]
    simp only [hys, Bool.false_eq_true, if_false]
    rw [← hrv]
    simp

theorem matchCmd_turnOn (D : String) (hne : D.data ≠ [])
    (hw : D.data.all isWordChar = true) :
    matchCmd "turn on" "/enable" ("turn on " ++ D) = some (some D) := by
  unfold matchCmd
  have hd : ("turn on " ++ D).data = "turn on".data ++ (' ' :: D.data) := by
    rw [String.data_append]
    exact rfl
  rw [hd, dropPfx_append]
  show tokenArg (' ' :: D.data) = some (some D)
  unfold tokenArg
  rcases hD : D.data with _ | ⟨c, cs⟩
  · exact absurd hD hne
  · have hcw : isWordChar c = true :=
      List.all_eq_true.mp hw c (by rw [hD]; exact List.mem_cons_self _ _)
    have hcs : isPySpace c = false := word_not_space hcw
    rw [hD] at hw
    simp only [List.isEmpty_cons, Bool.false_eq_true, if_false, List.takeWhile_cons,
      List.dropWhile_cons, hcs]
    have hsp : isPySpace ' ' = true := by decide
    simp only [hsp, if_true, List.takeWhile_cons, hcs, Bool.false_eq_true, if_false,
      List.isEmpty_cons, hw, List.dropWhile_cons]
    rw [← hD]

/-! ## C2 -/

/-- C2, counterexample: a consumed message whose routing key has fewer
than 3 segments but whose payload fails JSON decoding is settled with
`basic_nack(requeue=False)`, not with `basic_ack`, because the JSON
decode precedes every routing-key check — so "the message is
acknowledged ... regardless of the payload content" fails (zero
outbound sends are still made). -/
theorem C2_counterexample :
    (IMQbroker.callback envOk World.init "a/b" Body.malformed).1 = Ack.nacked ∧
    ¬ (IMQbroker.callback envOk World.init "a/b" Body.malformed).1 = Ack.acked ∧
    (IMQbroker.callback envOk World.init "a/b" Body.malformed).2.imSends = [] := by
  refine ⟨rfl, ?_, rfl⟩
  intro h
  exact absurd h (by decide)

/-- C2, amended: for every consumed message whose payload decodes as
JSON, if the routing key splits into fewer than 3 "/"-separated
segments, or its third segment is not "status_update", the callback
acknowledges the message and makes zero outbound send calls, leaving
the whole state unchanged; a payload that fails JSON decoding is
instead negatively acknowledged without requeue, also with zero
outbound sends. -/
theorem C2_gate_drops (env : Env) (st : World) (rk : String)
    (dstat did uid uname btok : Option String)
    (h : (pySplitSlash rk).length < 3 ∨ (pySplitSlash rk).getD 2 "unknown" ≠ "status_update") :
    ((IMQbroker.callback env st rk (Body.obj dstat did uid uname btok)).1 = Ack.acked ∧
     (IMQbroker.callback env st rk (Body.obj dstat did uid uname btok)).2 = st) ∧
    ((IMQbroker.callback env st rk Body.malformed).1 = Ack.nacked ∧
     (IMQbroker.callback env st rk Body.malformed).2 = st) := by
  refine ⟨?_, rfl, rfl⟩
  rcases h with h | h
  · simp [IMQbroker.callback, h]
  · by_cases hlen : (pySplitSlash rk).length < 3
    · simp [IMQbroker.callback, hlen]
    · have h' : (pySplitSlash rk)[2]?.getD "unknown" ≠ "status_update" := by
        simpa [List.getD_eq_getElem?_getD] using h
      simp [IMQbroker.callback, hlen, h']

/-- C2, witness: both gates at concrete inputs — a 2-segment routing
key, and a 3-segment routing key with a non-status event. -/
theorem C2_witness :
    (((IMQbroker.callback envOk World.init "x/y" (Body.obj none none none none none)).1 = Ack.acked ∧
      (IMQbroker.callback envOk World.init "x/y" (Body.obj none none none none none)).2 = World.init) ∧
     ((IMQbroker.callback envOk World.init "x/y" Body.malformed).1 = Ack.nacked ∧
      (IMQbroker.callback envOk World.init "x/y" Body.malformed).2 = World.init)) ∧
    (((IMQbroker.callback envOk World.init "line/C/other"
        (Body.obj (some "on") none none none none)).1 = Ack.acked ∧
      (IMQbroker.callback envOk World.init "line/C/other"
        (Body.obj (some "on") none none none none)).2 = World.init) ∧
     ((IMQbroker.callback envOk World.init "line/C/other" Body.malformed).1 = Ack.nacked ∧
      (IMQbroker.callback envOk World.init "line/C/other" Body.malformed).2 = World.init)) :=
  ⟨C2_gate_drops envOk World.init "x/y" none none none none none (Or.inl (by decide)),
   C2_gate_drops envOk World.init "line/C/other" (some "on") none none none none
     (Or.inr (by decide))⟩

/-! ## C4 -/

/-- C4, counterexample: a publish whose underlying transport operation
raises makes `MessageAPI.send_message` report failure after exactly one
publish attempt, with no reconnection (`connectAttempts` and
`clientPool` unchanged) — so the operation reports failure without any
retry, contrary to the claimed reconnect-once-and-retry discipline. -/
theorem C4_counterexample :
    (MessageAPI.send_message envPubFail World.init "esp32/light/enable"
        (mkEnvelope "on" (some "chatA") "line" "esp32_light_001" none none none)).1 = false ∧
    (MessageAPI.send_message envPubFail World.init "esp32/light/enable"
        (mkEnvelope "on" (some "chatA") "line" "esp32_light_001" none none none)).2.publishAttempts = 1 ∧
    (MessageAPI.send_message envPubFail World.init "esp32/light/enable"
        (mkEnvelope "on" (some "chatA") "line" "esp32_light_001" none none none)).2.connectAttempts = 0 ∧
    (MessageAPI.send_message envPubFail World.init "esp32/light/enable"
        (mkEnvelope "on" (some "chatA") "line" "esp32_light_001" none none none)).2.clientPool = [] := by
  exact ⟨rfl, rfl, rfl, rfl⟩

/-- C4, amended: on a transport-level publish failure,
`MessageAPI.send_message` reports failure immediately after a single
publish attempt — it performs no reconnection and no retry (in-process
reconnection is left to the MQTT client's configured automatic
reconnect, outside this call). -/
theorem C4_publish_single_attempt (env : Env) (st : World) (topic : String)
    (m : Envelope) (h : env.publishRaises = true) :
    (MessageAPI.send_message env st topic m).1 = false ∧
    (MessageAPI.send_message env st topic m).2.publishAttempts = st.publishAttempts + 1 ∧
    (MessageAPI.send_message env st topic m).2.connectAttempts = st.connectAttempts ∧
    (MessageAPI.send_message env st topic m).2.clientPool = st.clientPool ∧
    (MessageAPI.send_message env st topic m).2.mqttPublishes = st.mqttPublishes := by
  simp [MessageAPI.send_message, h]

/-- C4, witness for the amended theorem at a concrete failing publish. -/
theorem C4_witness :
    (MessageAPI.send_message envPubFail World.init "t"
        (mkEnvelope "on" none "line" "esp32_light_001" none none none)).1 = false ∧
    (MessageAPI.send_message envPubFail World.init "t"
        (mkEnvelope "on" none "line" "esp32_light_001" none none none)).2.publishAttempts = 0 + 1 ∧
    (MessageAPI.send_message envPubFail World.init "t"
        (mkEnvelope "on" none "line" "esp32_light_001" none none none)).2.connectAttempts = 0 ∧
    (MessageAPI.send_message envPubFail World.init "t"
        (mkEnvelope "on" none "line" "esp32_light_001" none none none)).2.clientPool = [] ∧
    (MessageAPI.send_message envPubFail World.init "t"
        (mkEnvelope "on" none "line" "esp32_light_001" none none none)).2.mqttPublishes = [] :=
  C4_publish_single_attempt envPubFail World.init "t"
    (mkEnvelope "on" none "line" "esp32_light_001" none none none) rfl

/-! ## C9 -/

/-- C9: a new MQTT client is inserted into the pool before any
connection attempt, so after a terminal connection failure (5 failed
attempts, the constructor raising) the pool retains the entry; a later
construction with the same chat id reuses that entry, returns without
any further connection attempt, and its `send_message` reports success
when the publish call itself does not raise. -/
theorem C9_pool_retained (env env2 env3 : Env) (st : World)
    (chat platform platform2 did did2 topic : String) (m : Envelope)
    (hc : env.connectOk = false) (hnp : chat ∉ st.clientPool) (hne : chat ≠ "")
    (hp : env3.publishRaises = false) :
    (mkMessageAPI env st platform did (some chat)).1 = .error () ∧
    chat ∈ (mkMessageAPI env st platform did (some chat)).2.clientPool ∧
    (mkMessageAPI env st platform did (some chat)).2.connectAttempts = st.connectAttempts + 5 ∧
    (mkMessageAPI env2 (mkMessageAPI env st platform did (some chat)).2 platform2 did2 (some chat)).1 =
      .ok { platform := platform2, device_id := did2, chat_id := chat } ∧
    (mkMessageAPI env2 (mkMessageAPI env st platform did (some chat)).2 platform2 did2 (some chat)).2 =
      (mkMessageAPI env st platform did (some chat)).2 ∧
    (MessageAPI.send_message env3 (mkMessageAPI env st platform did (some chat)).2 topic m).1 = true := by
  have heff : pyOr (some chat) "default" = chat := by simp [pyOr, hne]
  have h1 : mkMessageAPI env st platform did (some chat) =
      (.error (), { st with clientPool := chat :: st.clientPool,
                            connectAttempts := st.connectAttempts + 5 }) := by
    simp [mkMessageAPI, heff, hnp, hc]
  rw [h1]
  refine ⟨rfl, List.mem_cons_self _ _, rfl, ?_, ?_, ?_⟩
  · simp [mkMessageAPI, heff]
  · simp [mkMessageAPI, heff]
  · simp [MessageAPI.send_message, hp]

/-- C9, witness: the pool-retention scenario at concrete inputs. -/
theorem C9_witness :
    (mkMessageAPI envNoBroker World.init "line" DEVICE_ID (some "chatA")).1 = .error () ∧
    "chatA" ∈ (mkMessageAPI envNoBroker World.init "line" DEVICE_ID (some "chatA")).2.clientPool ∧
    (mkMessageAPI envNoBroker World.init "line" DEVICE_ID (some "chatA")).2.connectAttempts = 0 + 5 ∧
    (mkMessageAPI envNoBroker (mkMessageAPI envNoBroker World.init "line" DEVICE_ID (some "chatA")).2
        "line" DEVICE_ID (some "chatA")).1 =
      .ok { platform := "line", device_id := DEVICE_ID, chat_id := "chatA" } ∧
    (mkMessageAPI envNoBroker (mkMessageAPI envNoBroker World.init "line" DEVICE_ID (some "chatA")).2
        "line" DEVICE_ID (some "chatA")).2 =
      (mkMessageAPI envNoBroker World.init "line" DEVICE_ID (some "chatA")).2 ∧
    (MessageAPI.send_message envOk (mkMessageAPI envNoBroker World.init "line" DEVICE_ID (some "chatA")).2
        "t" (mkEnvelope "on" none "line" DEVICE_ID none none none)).1 = true :=
  C9_pool_retained envNoBroker envNoBroker envOk World.init "chatA" "line" "line"
    DEVICE_ID DEVICE_ID "t" (mkEnvelope "on" none "line" DEVICE_ID none none none)
    rfl (by simp [World.init]) (by decide) rfl

/-! ## C7 -/

/-- C7, counterexample: on the ESP32 virtual device, when the crypto
capability is absent (library not importable, hence no loaded public
key), `verify_signature` returns `False` and an Enable request for the
correct device id is refused with a 403 error — the request does not
proceed, contrary to the claim. -/
theorem C7_counterexample :
    esp32_verify_signature
      { cryptoAvailable := false, publicKeyLoaded := false,
        timestampFresh := true, signatureValid := true } = false ∧
    (esp32_request .enable
        { cryptoAvailable := false, publicKeyLoaded := false,
          timestampFresh := true, signatureValid := true }
        (some DEVICE_ID) "off").code = 403 ∧
    (esp32_request .enable
        { cryptoAvailable := false, publicKeyLoaded := false,
          timestampFresh := true, signatureValid := true }
        (some DEVICE_ID) "off").status = "error" ∧
    (esp32_request .enable
        { cryptoAvailable := false, publicKeyLoaded := false,
          timestampFresh := true, signatureValid := true }
        (some DEVICE_ID) "off").state = none := by
  exact ⟨rfl, rfl, rfl, rfl⟩

/-- C7, amended: the two executors differ. On the Raspberry Pi virtual
device, absence of the crypto capability (library or public key)
degrades to skip-verification and the command proceeds; on the ESP32
virtual device the same absence makes `verify_signature` return
`False`, so every command request is refused with a 403 error. -/
theorem C7_crypto_absent (c : CryptoEnv) (cmd : DevCmd) (did : Option String)
    (prev : String) (h : c.cryptoAvailable = false ∨ c.publicKeyLoaded = false) :
    pi_verify_signature c = true ∧
    (pi_request cmd c "raspberrypi_light_001" prev).status = "success" ∧
    (pi_request cmd c "raspberrypi_light_001" prev).code = 200 ∧
    esp32_verify_signature c = false ∧
    (esp32_request cmd c did prev).status = "error" ∧
    (esp32_request cmd c did prev).code = 403 := by
  have hpi : pi_verify_signature c = true := by
    rcases h with h | h <;> simp [pi_verify_signature, h]
  have hesp : esp32_verify_signature c = false := by
    rcases h with h | h <;> simp [esp32_verify_signature, h]
  refine ⟨hpi, ?_, ?_, hesp, ?_, ?_⟩
  · cases cmd <;> simp [pi_request, hpi]
  · cases cmd <;> simp [pi_request, hpi]
  · simp [esp32_request, hesp]
  · simp [esp32_request, hesp]

/-- C7, witness: the amended theorem at a concrete crypto-less Enable
request on both executors. -/
theorem C7_witness :
    pi_verify_signature
      { cryptoAvailable := false, publicKeyLoaded := false,
        timestampFresh := true, signatureValid := true } = true ∧
    (pi_request .enable
        { cryptoAvailable := false, publicKeyLoaded := false,
          timestampFresh := true, signatureValid := true }
        "raspberrypi_light_001" "off").status = "success" ∧
    (pi_request .enable
        { cryptoAvailable := false, publicKeyLoaded := false,
          timestampFresh := true, signatureValid := true }
        "raspberrypi_light_001" "off").code = 200 ∧
    esp32_verify_signature
      { cryptoAvailable := false, publicKeyLoaded := false,
        timestampFresh := true, signatureValid := true } = false ∧
    (esp32_request .enable
        { cryptoAvailable := false, publicKeyLoaded := false,
          timestampFresh := true, signatureValid := true }
        (some DEVICE_ID) "off").status = "error" ∧
    (esp32_request .enable
        { cryptoAvailable := false, publicKeyLoaded := false,
          timestampFresh := true, signatureValid := true }
        (some DEVICE_ID) "off").code = 403 :=
  C7_crypto_absent
    { cryptoAvailable := false, publicKeyLoaded := false,
      timestampFresh := true, signatureValid := true }
    .enable (some DEVICE_ID) "off" (Or.inl rfl)

/-! ## C1 -/

/-- C1, counterexample: the claim fails for device ids outside the
allow-list whose lower-cased form is in the allow-list. For
D = "ESP32_Light_001" (not in the allow-list), "turn on ESP32_Light_001"
is lower-cased by the parser and succeeds with device_id
"esp32_light_001" instead of failing with "Invalid device ID". -/
theorem C1_counterexample :
    ¬ ("ESP32_Light_001" ∈ SUPPORTED_DEVICES) ∧
    (IoTParse_Message envOk World.init ("turn on " ++ "ESP32_Light_001") defaultDevice
        "chatA" "line" none none).1.success = true ∧
    (IoTParse_Message envOk World.init ("turn on " ++ "ESP32_Light_001") defaultDevice
        "chatA" "line" none none).1.message ≠ some "Invalid device ID" ∧
    (IoTParse_Message envOk World.init ("turn on " ++ "ESP32_Light_001") defaultDevice
        "chatA" "line" none none).1.device_id = some "esp32_light_001" := by
  refine ⟨by decide, rfl, by decide, rfl⟩

/-- C1, amended: for every device id D in the allow-list, "turn on " + D
returns success with action "Enable" and device_id D, provided the
broker connection and the publish succeed (on transport failure the
call reports a failure instead). For every D that is a nonempty
lower-case word-character token not in the allow-list, the call returns
success == false with message "Invalid device ID" and a message
enumerating the valid device ids is sent to the user. (Other D — with
upper-case letters or non-word characters — are first lower-cased, and
fall back to the default device or to "Invalid command" when the
pattern does not match, as the counterexample shows.) -/
theorem C1_turn_on (D : String) :
    (D ∈ SUPPORTED_DEVICES → ∀ env st (device : Device) chat p uid un,
      env.connectOk = true → env.publishRaises = false →
      (IoTParse_Message env st ("turn on " ++ D) device chat p uid un).1 =
        { success := true, action := some "Enable", device_id := some D }) ∧
    (D.data ≠ [] → D.data.all isWordChar = true → (∀ x ∈ D.data, lowerChar x = x) →
      D ∉ SUPPORTED_DEVICES → ∀ env st (device : Device) chat p uid un,
      (IoTParse_Message env st ("turn on " ++ D) device chat p uid un).1 =
        { success := false, message := some "Invalid device ID" } ∧
      (IoTParse_Message env st ("turn on " ++ D) device chat p uid un).2.imSends =
        st.imSends ++ [{ chat := chat, text := invalidDeviceText D, platform := p }]) := by
  constructor
  · intro hD env st device chat p uid un hc hp
    have hD' : D = "esp32_light_001" ∨ D = "esp32_fan_002" ∨ D = "raspberrypi_light_001" ∨
        D = "raspberrypi_fan_002" := by
      simpa [SUPPORTED_DEVICES] using hD
    rcases hD' with h | h | h | h <;> subst h <;>
      exact (IoTParse_Message_of_core_ok
        (core_enable_ok env st _ device chat p uid un _ (by decide) (by decide) (by decide)
          (by decide) hc hp).1).1
  · intro hne hw hlow hD env st device chat p uid un
    have hnorm : pyStrip (pyLower ("turn on " ++ D)) = "turn on " ++ D := by
      rw [pyLower_turnOn D hlow, pyStrip_turnOn D hne hw]
    have hg : isGreetingText (pyStrip (pyLower ("turn on " ++ D))) = false := by
      rw [hnorm]
      exact isGreetingText_turnOn D
    have hb : matchBind (pyStrip (pyLower ("turn on " ++ D))) = none := by
      rw [hnorm]
      exact matchBind_turnOn D
    have hcmd : matchCmd "turn on" "/enable" (pyStrip (pyLower ("turn on " ++ D))) =
        some (some D) := by
      rw [hnorm]
      exact matchCmd_turnOn D hne hw
    have hcore := core_enable_invalid env st (pyStrip (pyLower ("turn on " ++ D))) device
      chat p uid un D hg hb hcmd hD
    constructor
    · exact (IoTParse_Message_of_core_ok hcore.1).1
    · rw [(IoTParse_Message_of_core_ok hcore.1).2, hcore.2]

/-- C1, witness: both halves of the amended claim at concrete inputs. -/
theorem C1_witness :
    (IoTParse_Message envOk World.init ("turn on " ++ "esp32_light_001") defaultDevice
        "chatA" "line" none none).1 =
      { success := true, action := some "Enable", device_id := some "esp32_light_001" } ∧
    (IoTParse_Message envOk World.init ("turn on " ++ "unknown_dev_9") defaultDevice
        "chatA" "line" none none).1 =
      { success := false, message := some "Invalid device ID" } ∧
    (IoTParse_Message envOk World.init ("turn on " ++ "unknown_dev_9") defaultDevice
        "chatA" "line" none none).2.imSends =
      World.init.imSends ++
        [{ chat := "chatA", text := invalidDeviceText "unknown_dev_9", platform := "line" }] :=
  ⟨(C1_turn_on "esp32_light_001").1 (by decide) envOk World.init defaultDevice "chatA" "line"
      none none rfl rfl,
   ((C1_turn_on "unknown_dev_9").2 (by decide) (by decide) (by decide) (by decide) envOk
      World.init defaultDevice "chatA" "line" none none).1,
   ((C1_turn_on "unknown_dev_9").2 (by decide) (by decide) (by decide) (by decide) envOk
      World.init defaultDevice "chatA" "line" none none).2⟩

/-! ## C5 -/

/-- C5, counterexample: two `/bind` commands for the same device from
chats A and B both succeed, but the second bind sends no
"has joined the group" notification to A — the only sends in the whole
trace are the two individual confirmations, because every `/bind`
constructs a fresh `Device` whose group state is empty. -/
theorem C5_counterexample :
    (IoTParse_Message envOk
        (IoTParse_Message envOk World.init "/bind esp32_light_001" defaultDevice "chatA"
          "line" none none).2
        "/bind esp32_light_001" defaultDevice "chatB" "line" none none).1.success = true ∧
    (IoTParse_Message envOk
        (IoTParse_Message envOk World.init "/bind esp32_light_001" defaultDevice "chatA"
          "line" none none).2
        "/bind esp32_light_001" defaultDevice "chatB" "line" none none).2.imSends =
      [{ chat := "chatA", text := "Successfully bound to device esp32_light_001",
         platform := "line" },
       { chat := "chatB", text := "Successfully bound to device esp32_light_001",
         platform := "line" }] ∧
    ∀ x ∈ (IoTParse_Message envOk
        (IoTParse_Message envOk World.init "/bind esp32_light_001" defaultDevice "chatA"
          "line" none none).2
        "/bind esp32_light_001" defaultDevice "chatB" "line" none none).2.imSends,
      x.text ≠ joinText "chatB" "esp32_light_001" := by
  refine ⟨rfl, rfl, by decide⟩

/-- C5, amended: each `/bind` command constructs a fresh device handle
with empty group state, so the binder always becomes the group owner of
that fresh handle and the command sends exactly the individual
confirmation — no join notification is ever sent through the `/bind`
path. The join-notification logic fires only when `bind_user` is
invoked again on one persistent `Device` object with a new chat id: it
then returns success and sends "User {C} has joined the group for
device {D}" to every existing member. -/
theorem C5_bind_owner_no_notify (D : String) :
    (D ∈ SUPPORTED_DEVICES → ∀ env st (device : Device) chat p uid un,
      env.connectOk = true →
      (IoTParse_Message env st ("/bind " ++ D) device chat p uid un).1 =
        { success := true, action := some "Bind", device_id := some D } ∧
      (IoTParse_Message env st ("/bind " ++ D) device chat p uid un).2.imSends =
        st.imSends ++
          [{ chat := chat, text := "Successfully bound to device " ++ D, platform := p }]) ∧
    (∀ env st (d : Device) (C P g : String), d.group_id = some g → C ∉ d.group_members →
      (Device.bind_user env st d C P).1 = true ∧
      (Device.bind_user env st d C P).2.2.imSends =
        st.imSends ++ d.group_members.map
          (fun m => { chat := m, text := joinText C d.device_id, platform := P })) := by
  constructor
  · intro hD env st device chat p uid un hc
    have hD' : D = "esp32_light_001" ∨ D = "esp32_fan_002" ∨ D = "raspberrypi_light_001" ∨
        D = "raspberrypi_fan_002" := by
      simpa [SUPPORTED_DEVICES] using hD
    have key : D ∈ SUPPORTED_DEVICES →
        isGreetingText (pyStrip (pyLower ("/bind " ++ D))) = false →
        matchBind (pyStrip (pyLower ("/bind " ++ D))) = some D →
        (IoTParse_Message env st ("/bind " ++ D) device chat p uid un).1 =
          { success := true, action := some "Bind", device_id := some D } ∧
        (IoTParse_Message env st ("/bind " ++ D) device chat p uid un).2.imSends =
          st.imSends ++
            [{ chat := chat, text := "Successfully bound to device " ++ D, platform := p }] := by
      intro hid hg hb
      have hcore := core_bind_ok env st (pyStrip (pyLower ("/bind " ++ D))) device chat p
        uid un D hg hb hid hc
      constructor
      · exact (IoTParse_Message_of_core_ok hcore.1).1
      · rw [(IoTParse_Message_of_core_ok hcore.1).2]
        exact hcore.2.1
    rcases hD' with h | h | h | h <;> subst h <;>
      exact key (by decide) (by decide) (by decide)
  · intro env st d C P g hgid hC
    have hfilter : (d.group_members ++ [C]).filter (fun m => m != C) = d.group_members := by
      rw [List.filter_append]
      have h1 : d.group_members.filter (fun m => m != C) = d.group_members := by
        apply List.filter_eq_self.mpr
        intro m hm
        have hne : m ≠ C := fun e => hC (e ▸ hm)
        simpa using hne
      simp [h1]
    unfold Device.bind_user
    rw [hgid]
    simp only [hC, if_false]
    refine ⟨trivial, ?_⟩
    rw [notifyJoin_spec, hfilter]

/-- C5, witness: both halves at concrete inputs — the command path on
the empty state, and `bind_user` on a persistent device object with an
existing member. -/
theorem C5_witness :
    ((IoTParse_Message envOk World.init ("/bind " ++ "esp32_light_001") defaultDevice "chatA"
        "line" none none).1 =
      { success := true, action := some "Bind", device_id := some "esp32_light_001" } ∧
     (IoTParse_Message envOk World.init ("/bind " ++ "esp32_light_001") defaultDevice "chatA"
        "line" none none).2.imSends =
      World.init.imSends ++
        [{ chat := "chatA", text := "Successfully bound to device " ++ "esp32_light_001",
           platform := "line" }]) ∧
    ((Device.bind_user envOk World.init
        { defaultDevice with group_id := some "chatA", group_members := ["chatA"] }
        "chatB" "line").1 = true ∧
     (Device.bind_user envOk World.init
        { defaultDevice with group_id := some "chatA", group_members := ["chatA"] }
        "chatB" "line").2.2.imSends =
      World.init.imSends ++
        ["chatA"].map
          (fun m => { chat := m, text := joinText "chatB" DEVICE_ID, platform := "line" })) :=
  ⟨(C5_bind_owner_no_notify "esp32_light_001").1 (by decide) envOk World.init defaultDevice
      "chatA" "line" none none rfl,
   (C5_bind_owner_no_notify "esp32_light_001").2 envOk World.init
      { defaultDevice with group_id := some "chatA", group_members := ["chatA"] }
      "chatB" "line" "chatA" rfl (by decide)⟩

/-! ## C6 -/

/-- C6, counterexample: the process holds two independent greeted sets.
Chat "chatC" first receives the greeting prefix through the LINE
adapter's send (`IMLine.greeted_users`); a later status-update relayed
by the broker callback consults `IMQbroker.greeted_users`, where
"chatC" is still unknown, and prepends "Hi, Alice" to the outbound send
again — so a later outbound send to an already-greeted chat id does
re-prepend the greeting. -/
theorem C6_counterexample :
    (IMLine.send_message envOk World.init "chatC" "hello" (some "Alice")).2.linePushes =
      [{ dest := "chatC", text := "Hi, Alice\nhello" }] ∧
    (IMQbroker.callback envOk
        (IMLine.send_message envOk World.init "chatC" "hello" (some "Alice")).2
        "line/chatC/status_update"
        (Body.obj (some "on") (some "esp32_light_001") none (some "Alice") none)).2.imSends =
      [{ chat := "chatC",
         text := "Hi, Alice\nDevice esp32_light_001 is now on, operated by user Alice",
         platform := "line" }] := by
  exact ⟨rfl, rfl⟩

/-- C6, amended: each of the two greeted sets only grows within the
process, and each mechanism separately never re-prepends its greeting:
the LINE adapter pushes the raw text once a chat id is in its own
greeted set, and the broker callback, once the routing chat id is in
its own greeted set, leaves that set unchanged and adds only
greeting-free sends (the plain status text or the third-person
fan-out text). The two sets are independent, so a chat id greeted by
one mechanism can still be greeted once by the other. -/
theorem C6_greeting_per_mechanism :
    (∀ env st dest text dn,
      st.greetedLine ⊆ (IMLine.send_message env st dest text dn).2.greetedLine ∧
      (IMLine.send_message env st dest text dn).2.greetedIMQ = st.greetedIMQ) ∧
    (∀ env st dest text dn, dest ∈ st.greetedLine →
      (IMLine.send_message env st dest text dn).2 =
        { st with linePushes := st.linePushes ++ [{ dest := dest, text := text }] }) ∧
    (∀ env st rk body,
      st.greetedIMQ ⊆ (IMQbroker.callback env st rk body).2.greetedIMQ ∧
      (IMQbroker.callback env st rk body).2.greetedLine = st.greetedLine) ∧
    (∀ env st rk dstat did uid uname btok,
      (pySplitSlash rk).getD 1 "" ∈ st.greetedIMQ →
      (IMQbroker.callback env st rk (Body.obj dstat did uid uname btok)).2.greetedIMQ =
        st.greetedIMQ ∧
      ∀ x ∈ (IMQbroker.callback env st rk (Body.obj dstat did uid uname btok)).2.imSends,
        x ∈ st.imSends ∨
        x.text = IMQbroker.statusText (did.getD DEVICE_ID) (dstat.getD "") (uname.getD "User") ∨
        x.text = IMQbroker.otherText (did.getD DEVICE_ID) (dstat.getD "") (uname.getD "User")) := by
  refine ⟨?_, ?_, ?_, ?_⟩
  · intro env st dest text dn
    by_cases h : dest ∈ st.greetedLine
    · rw [line_send_greeted env st dest text dn h]
      exact ⟨fun x hx => hx, rfl⟩
    · rw [line_send_fresh env st dest text dn h]
      exact ⟨fun x hx => List.mem_cons_of_mem _ hx, rfl⟩
  · intro env st dest text dn h
    rw [line_send_greeted env st dest text dn h]
  · intro env st rk body
    cases body with
    | malformed => exact ⟨fun x hx => hx, rfl⟩
    | obj a b c d e =>
      have h := callback_spec env st rk a b c d e
      exact ⟨h.1, h.2.1⟩
  · intro env st rk dstat did uid uname btok hg
    exact (callback_spec env st rk dstat did uid uname btok).2.2.2.2.2 hg

/-- C6, witness: the per-mechanism guarantees at concrete
already-greeted states. -/
theorem C6_witness :
    (IMLine.send_message envOk { World.init with greetedLine := ["chatC"] } "chatC" "hello"
        (some "Alice")).2 =
      { { World.init with greetedLine := ["chatC"] } with
          linePushes := World.init.linePushes ++ [{ dest := "chatC", text := "hello" }] } ∧
    ((IMQbroker.callback envOk { World.init with greetedIMQ := ["chatC"] }
        "line/chatC/status_update"
        (Body.obj (some "on") none none (some "Alice") none)).2.greetedIMQ =
      ({ World.init with greetedIMQ := ["chatC"] } : World).greetedIMQ ∧
     ∀ x ∈ (IMQbroker.callback envOk { World.init with greetedIMQ := ["chatC"] }
        "line/chatC/status_update"
        (Body.obj (some "on") none none (some "Alice") none)).2.imSends,
       x ∈ ({ World.init with greetedIMQ := ["chatC"] } : World).imSends ∨
       x.text = IMQbroker.statusText ((none : Option String).getD DEVICE_ID)
         ((some "on").getD "") ((some "Alice").getD "User") ∨
       x.text = IMQbroker.otherText ((none : Option String).getD DEVICE_ID)
         ((some "on").getD "") ((some "Alice").getD "User")) :=
  ⟨C6_greeting_per_mechanism.2.1 envOk { World.init with greetedLine := ["chatC"] } "chatC"
      "hello" (some "Alice") (by decide),
   C6_greeting_per_mechanism.2.2.2 envOk { World.init with greetedIMQ := ["chatC"] }
      "line/chatC/status_update" (some "on") none none (some "Alice") none (by decide)⟩

/-! ## C8 -/

/-- C8: `IoTParse_Message` is total at its interface. For every input
it returns a result dict with a boolean `success` key that is
well-formed (success with an action set, or failure with a message
set), and whenever the `try` body raises an internal exception, the
result is the `success == false` dict with message
"Error processing command" — no exception escapes to the caller. -/
theorem C8_total_interface (env : Env) (st : World) (raw : String) (device : Device)
    (chat p : String) (uid un : Option String) :
    (((IoTParse_Message env st raw device chat p uid un).1.success = true ∧
      (IoTParse_Message env st raw device chat p uid un).1.action ≠ none) ∨
     ((IoTParse_Message env st raw device chat p uid un).1.success = false ∧
      (IoTParse_Message env st raw device chat p uid un).1.message ≠ none)) ∧
    ((IoTParse_core env st (pyStrip (pyLower raw)) device chat p uid un).1 = .error () →
      (IoTParse_Message env st raw device chat p uid un).1 =
        { success := false, message := some "Error processing command" }) := by
  constructor
  · rcases core_wf env st (pyStrip (pyLower raw)) device chat p uid un with h | ⟨r, h, hwf⟩
    · have he := IoTParse_Message_of_core_error h
      rw [he]
      simp
    · rw [(IoTParse_Message_of_core_ok h).1]
      exact hwf
  · exact fun h => IoTParse_Message_of_core_error h

/-- C8, witness: a command that needs a device while the broker is
unreachable makes the body raise, and the caller still receives the
error dict. -/
theorem C8_witness :
    (IoTParse_Message envNoBroker World.init "turn on esp32_light_001" defaultDevice
        "chatA" "line" none none).1 =
      { success := false, message := some "Error processing command" } :=
  (C8_total_interface envNoBroker World.init "turn on esp32_light_001" defaultDevice
    "chatA" "line" none none).2 rfl

/-! ## C10 -/

/-- C10: `Device.bind_user` updates only the process-local in-memory
bindings map (device id to set of chat ids, with no platform recorded)
and never writes the persisted bindings document; the whole
`IoTParse_Message` entry point (hence every `/bind` command) leaves the
persisted document unchanged; and the status-relay callback, whose
fan-out reads the in-memory map, also leaves both stores unchanged. -/
theorem C10_bind_frame :
    (∀ env st (d : Device) (C P : String),
      (Device.bind_user env st d C P).2.2.persistedBindings = st.persistedBindings ∧
      (Device.bind_user env st d C P).2.2.bindings =
        setEntry st.bindings d.device_id
          (addIfAbsent ((st.bindings.lookup d.device_id).getD []) C)) ∧
    (∀ env st raw (device : Device) chat p uid un,
      (IoTParse_Message env st raw device chat p uid un).2.persistedBindings =
        st.persistedBindings) ∧
    (∀ env st rk body,
      (IMQbroker.callback env st rk body).2.persistedBindings = st.persistedBindings ∧
      (IMQbroker.callback env st rk body).2.bindings = st.bindings) := by
  refine ⟨?_, ?_, ?_⟩
  · intro env st d C P
    exact ⟨(bind_user_spec env st d C P).2.2, (bind_user_spec env st d C P).2.1⟩
  · intro env st raw device chat p uid un
    exact message_persisted env st raw device chat p uid un
  · intro env st rk body
    cases body with
    | malformed => exact ⟨rfl, rfl⟩
    | obj dstat did uid uname btok =>
      have h := callback_spec env st rk dstat did uid uname btok
      exact ⟨h.2.2.2.1, h.2.2.2.2.1⟩

end MicroIoT
